import Mathlib

/-!
Shallow embedding of the ibc-rs core protocol engine: identifier validation
(ics24), trust threshold (ics07), channel/connection handshake message
conversions (ics03/ics04), the send-packet handler (ics04), and the
block-delay helper.  Rust strings are modelled as lists of characters;
`u64` values are modelled as `Nat` with explicit bounds where overflow or
saturation matters.  Fallible Rust functions returning `Result` are
modelled as `Except`.
-/

set_option maxHeartbeats 1000000

/-- A Rust `&str` / `String`, modelled as its list of characters. -/
abbrev Str := List Char

/-- Rust `str::len` (UTF-8 byte length), modelled via `Char.utf8Size`. -/
def strLen (s : Str) : Nat := (s.map Char.utf8Size).sum

/-- The special characters allowed in identifiers: `VALID_SPECIAL_CHARS = "._+-#[]<>"`
(ics24_host/identifier/validate.rs). -/
def validSpecialChars : Str := ['.', '_', '+', '-', '#', '[', ']', '<', '>']

/-- One character of Rust's
`c.is_alphanumeric() || VALID_SPECIAL_CHARS.contains(c)` check; Rust's
Unicode `char::is_alphanumeric` is modelled by `Char.isAlphanum`. -/
def allowedIdentChar (c : Char) : Bool :=
  c.isAlphanum || validSpecialChars.contains c

/-- `PATH_SEPARATOR = '/'` (ics24_host/identifier/validate.rs). -/
def pathSeparator : Char := '/'

/-- `IdentifierError` (ics24_host/identifier): the variants used by the
validators, each carrying the offending identifier. -/
inductive IdentifierError where
  | ContainSeparator (id : Str)
  | InvalidCharacter (id : Str)
  | InvalidLength (id : Str) (length min max : Nat)
  deriving DecidableEq, Repr

/-- `validate_identifier_chars` (validate.rs, lines 11-30): fails with
`ContainSeparator` if the id contains `/`, with `InvalidCharacter` if any
character is neither alphanumeric nor in `._+-#[]<>`. -/
def validate_identifier_chars (id : Str) : Except IdentifierError Unit :=
  if id.contains pathSeparator then
    Except.error (IdentifierError.ContainSeparator id)
  else if !(id.all allowedIdentChar) then
    Except.error (IdentifierError.InvalidCharacter id)
  else
    Except.ok ()

/-- `validate_identifier_length` (validate.rs, lines 35-49): raises `min`
to at least 1, then requires `min <= len(id) <= max`. -/
def validate_identifier_length (id : Str) (min max : Nat) :
    Except IdentifierError Unit :=
  if Nat.max min 1 ≤ strLen id ∧ strLen id ≤ max then
    Except.ok ()
  else
    Except.error (IdentifierError.InvalidLength id (strLen id) (Nat.max min 1) max)

/-- `validate_prefix_length` (validate.rs, lines 54-69): bounds are
`min_id_length.saturating_sub(2)` and `max_id_length.saturating_sub(21)`
(Nat subtraction saturates), then delegates to
`validate_identifier_length`. -/
def validate_prefix_length (pfx : Str) (min_id_length max_id_length : Nat) :
    Except IdentifierError Unit :=
  validate_identifier_length pfx (min_id_length - 2) (max_id_length - 21)

/-- `validate_client_identifier` (validate.rs): chars check then length
window 9-64. -/
def validate_client_identifier (id : Str) : Except IdentifierError Unit := do
  validate_identifier_chars id
  validate_identifier_length id 9 64

/-- `validate_connection_identifier` (validate.rs): chars check then length
window 10-64. -/
def validate_connection_identifier (id : Str) : Except IdentifierError Unit := do
  validate_identifier_chars id
  validate_identifier_length id 10 64

/-- `validate_port_identifier` (validate.rs): chars check then length
window 2-128. -/
def validate_port_identifier (id : Str) : Except IdentifierError Unit := do
  validate_identifier_chars id
  validate_identifier_length id 2 128

/-- `validate_channel_identifier` (validate.rs): chars check then length
window 8-64. -/
def validate_channel_identifier (id : Str) : Except IdentifierError Unit := do
  validate_identifier_chars id
  validate_identifier_length id 8 64

/-- `u64::MAX`, the saturation point of sequence increment. -/
def u64Max : Nat := 2 ^ 64 - 1

/-- `ClientError` (ics02_client): the variants reachable from the embedded
code.  `ClientNotActive` carries the offending status; trust-threshold
variants carry the rejected fraction. -/
inductive Status where
  | Active
  | Frozen
  | Expired
  deriving DecidableEq, Repr

/-- `Status::is_active` (ics02_client): true only for `Active`. -/
def Status.is_active : Status → Bool
  | Status.Active => true
  | _ => false

inductive ClientError where
  | InvalidTrustThreshold (numerator denominator : Nat)
  | FailedTrustThresholdConversion (numerator denominator : Nat)
  | ClientNotActive (status : Status)
  deriving DecidableEq, Repr

/-- `TrustThreshold` (ics07_tendermint/trust_threshold.rs): a
numerator/denominator pair of `u64`s. -/
structure TrustThreshold where
  numerator : Nat
  denominator : Nat
  deriving DecidableEq, Repr

/-- `TrustThreshold::new` (trust_threshold.rs, lines 65-81): rejects the
pair with `InvalidTrustThreshold` when `numerator > denominator`, or
`denominator == 0 && numerator != 0`, or
`numerator == denominator && numerator != 0`. -/
def TrustThreshold.new (numerator denominator : Nat) :
    Except ClientError TrustThreshold :=
  if numerator > denominator ∨ (denominator = 0 ∧ numerator ≠ 0) ∨
      (numerator = denominator ∧ numerator ≠ 0) then
    Except.error (ClientError.InvalidTrustThreshold numerator denominator)
  else
    Except.ok { numerator := numerator, denominator := denominator }

/-- `calculate_block_delay` (ics04_channel/context.rs, lines 139-152);
durations are modelled by their `as_secs()` value. -/
def calculate_block_delay (delay_period_time max_expected_time_per_block : Nat) : Nat :=
  if max_expected_time_per_block = 0 then 0
  else if delay_period_time % max_expected_time_per_block = 0 then
    delay_period_time / max_expected_time_per_block
  else
    delay_period_time / max_expected_time_per_block + 1

/-- `PortId` (ics24_host/identifier): a validated string token. -/
structure PortId where
  val : Str
  deriving DecidableEq, Repr

/-- `ChannelId` (ics24_host/identifier). -/
structure ChannelId where
  val : Str
  deriving DecidableEq, Repr

/-- `ConnectionId` (ics24_host/identifier). -/
structure ConnectionId where
  val : Str
  deriving DecidableEq, Repr

/-- `ClientId` (ics24_host/identifier). -/
structure ClientId where
  val : Str
  deriving DecidableEq, Repr

/-- `PortId::from_str` / `"...".parse()`: validate then wrap. -/
def parsePortId (s : Str) : Except IdentifierError PortId :=
  (validate_port_identifier s).map fun _ => PortId.mk s

/-- `ChannelId::from_str`: validate then wrap. -/
def parseChannelId (s : Str) : Except IdentifierError ChannelId :=
  (validate_channel_identifier s).map fun _ => ChannelId.mk s

/-- `ConnectionId::from_str`: validate then wrap. -/
def parseConnectionId (s : Str) : Except IdentifierError ConnectionId :=
  (validate_connection_identifier s).map fun _ => ConnectionId.mk s

/-- `ClientId::from_str`: validate then wrap. -/
def parseClientId (s : Str) : Except IdentifierError ClientId :=
  (validate_client_identifier s).map fun _ => ClientId.mk s

/-- The protobuf `Height` as it appears on the wire: a pair of `u64`s. -/
structure RawHeight where
  revision_number : Nat
  revision_height : Nat
  deriving DecidableEq, Repr

/-- Modelled from the spec: the domain `Height` type, "(revision_number:
u64, revision_height: u64), totally ordered, lexicographic"; its raw
conversion is missing from src. -/
structure Height where
  revision_number : Nat
  revision_height : Nat
  deriving DecidableEq, Repr

/-- Modelled from the spec: `Height::try_from(RawHeight)`; per the spec
invariant "revision_height > 0 for any valid height except the sentinel",
the conversion fails exactly when `revision_height` is zero (the repo's
tests reject raw heights `(0,0)` and `(1,0)`).  Returns `Option` to model
the call sites' `raw_height.try_into().ok()`. -/
def heightFromRaw (h : RawHeight) : Option Height :=
  if h.revision_height = 0 then none
  else some (Height.mk h.revision_number h.revision_height)

/-- `From<Height> for RawHeight`: the two fields are copied. -/
def heightToRaw (h : Height) : RawHeight :=
  RawHeight.mk h.revision_number h.revision_height

/-- Modelled from the spec: lexicographic order on `Height`
("totally ordered, lexicographic on (revision_number, revision_height)"). -/
def heightLe (a b : Height) : Bool :=
  a.revision_number < b.revision_number ||
    (a.revision_number = b.revision_number && a.revision_height ≤ b.revision_height)

/-- Modelled from the spec: a packet's `timeout_height_on_b` is a "Height
(optional / 'no timeout' sentinel)"; `none` is the no-timeout sentinel. -/
abbrev TimeoutHeight := Option Height

/-- Modelled from the spec: `TimeoutHeight::has_expired`; a set timeout
height has expired once the observed chain height reaches it (send_packet
requires the timeout height be "strictly greater than the client's latest
known height"); the no-timeout sentinel never expires. -/
def timeoutHeightHasExpired (th : TimeoutHeight) (h : Height) : Bool :=
  match th with
  | none => false
  | some t => heightLe t h

/-- Modelled from the spec: `Timestamp` with an optional sentinel; `none`
is the "not set / no timeout" sentinel, `some n` a nanosecond count. -/
abbrev Timestamp := Option Nat

/-- Modelled from the spec: the three-way expiry outcome
(`Expired` / `NotExpired` / `Unknown`) of comparing two timestamps. -/
inductive Expiry where
  | Expired
  | NotExpired
  | Unknown
  deriving DecidableEq, Repr

/-- Modelled from the spec: `latest.check_expiry(deadline)`; "Unknown
(timestamp ordering undecidable without additional information)" when
either side is the unset sentinel, `Expired` when the latest known
timestamp is strictly past the deadline. -/
def checkExpiry (latest deadline : Timestamp) : Expiry :=
  match latest, deadline with
  | some l, some d => if l > d then Expiry.Expired else Expiry.NotExpired
  | _, _ => Expiry.Unknown

/-- `Signer`: an opaque string the core only threads through. -/
structure Signer where
  val : Str
  deriving DecidableEq, Repr

/-- `Version` (ics04_channel/version.rs): a string newtype; `From<String>`
is unconditional, so any string (empty, whitespace, arbitrary) is a valid
version. -/
structure Version where
  val : Str
  deriving DecidableEq, Repr

/-- `Version::empty()`: the empty version string. -/
def Version.empty : Version := Version.mk []

/-- `CommitmentProofBytes` (ics23_commitment): a non-empty byte vector;
`TryFrom<Vec<u8>>` rejects the empty vector. -/
structure CommitmentProofBytes where
  val : List Nat
  deriving DecidableEq, Repr

/-- `CommitmentProofBytes::try_from(Vec<u8>)`: fails on an empty vector
(the repo's tests reject `proof_init: Vec::new()`); returns `Option` to
model the call sites' `.try_into().map_err(|_| ...)`. -/
def proofFromBytes (bs : List Nat) : Option CommitmentProofBytes :=
  if bs = [] then none else some (CommitmentProofBytes.mk bs)

/-- Modelled from the spec: `Acknowledgement` is an "opaque non-empty byte
payload", so its `TryFrom<Vec<u8>>` rejects the empty vector. -/
structure Acknowledgement where
  val : List Nat
  deriving DecidableEq, Repr

/-- Modelled from the spec: `Acknowledgement::try_from(Vec<u8>)` fails on
an empty payload. -/
def ackFromBytes (bs : List Nat) : Option Acknowledgement :=
  if bs = [] then none else some (Acknowledgement.mk bs)

/-- `State` (ics04_channel/channel.rs): channel states per the spec's data
model, `state ∈ {Init, TryOpen, Open, Closed}`. -/
inductive ChanState where
  | Init
  | TryOpen
  | Open
  | Closed
  deriving DecidableEq, Repr

/-- `Order` (ics04_channel/channel.rs): `ordering ∈ {Ordered, Unordered}`. -/
inductive Order where
  | Unordered
  | Ordered
  deriving DecidableEq, Repr

/-- `ChannelError` (ics04_channel/error.rs): the variants reachable from
the embedded conversions.  `InvalidChannelId` drops the constant
explanatory `expected` message and keeps the offending `actual` value;
`InvalidState` and `MissingCounterparty` mirror the state-mismatch and
missing-field errors. -/
inductive ChannelError where
  | MissingChannel
  | InvalidState (actual : Nat)
  | UnexpectedState (expected actual : ChanState)
  | InvalidOrderType (actual : Nat)
  | InvalidChannelId (actual : Str)
  | MissingCounterparty
  | InvalidProof
  | MissingHeight
  | Identifier (e : IdentifierError)
  | NonEmptyChannelId
  deriving DecidableEq, Repr

/-- Modelled from the spec: decoding the protobuf channel-state integer;
the spec's four states use the protobuf tags 1..4, anything else is
invalid. -/
def chanStateFromI32 (s : Nat) : Except ChannelError ChanState :=
  match s with
  | 1 => Except.ok ChanState.Init
  | 2 => Except.ok ChanState.TryOpen
  | 3 => Except.ok ChanState.Open
  | 4 => Except.ok ChanState.Closed
  | _ => Except.error (ChannelError.InvalidState s)

/-- Encoding a channel state back to its protobuf tag. -/
def chanStateToI32 : ChanState → Nat
  | ChanState.Init => 1
  | ChanState.TryOpen => 2
  | ChanState.Open => 3
  | ChanState.Closed => 4

/-- Modelled from the spec: decoding the protobuf ordering integer; the
spec's two orderings use the protobuf tags 1 (Unordered) and 2 (Ordered). -/
def orderFromI32 (s : Nat) : Except ChannelError Order :=
  match s with
  | 1 => Except.ok Order.Unordered
  | 2 => Except.ok Order.Ordered
  | _ => Except.error (ChannelError.InvalidOrderType s)

/-- Encoding an ordering back to its protobuf tag. -/
def orderToI32 : Order → Nat
  | Order.Unordered => 1
  | Order.Ordered => 2

/-- `Counterparty` (ics04_channel/channel.rs): "port id + optional channel
id" per the spec's data model. -/
structure Counterparty where
  port_id : PortId
  channel_id : Option ChannelId
  deriving DecidableEq, Repr

/-- The protobuf counterparty: two plain strings, the channel id empty when
unset. -/
structure RawCounterparty where
  port_id : Str
  channel_id : Str
  deriving DecidableEq, Repr

/-- Modelled from the spec: decoding a raw counterparty; an empty channel
id string denotes the absent optional channel id, otherwise the id is
parsed with the channel-identifier validator. -/
def counterpartyFromRaw (rc : RawCounterparty) : Except ChannelError Counterparty :=
  match parsePortId rc.port_id with
  | Except.error e => Except.error (ChannelError.Identifier e)
  | Except.ok p =>
    if rc.channel_id = [] then
      Except.ok (Counterparty.mk p none)
    else
      match parseChannelId rc.channel_id with
      | Except.error e => Except.error (ChannelError.Identifier e)
      | Except.ok c => Except.ok (Counterparty.mk p (some c))

/-- Encoding a counterparty: an absent channel id becomes the empty
string. -/
def counterpartyToRaw (c : Counterparty) : RawCounterparty :=
  RawCounterparty.mk c.port_id.val (match c.channel_id with
    | none => []
    | some ch => ch.val)

/-- Modelled from the spec: `Counterparty::verify_empty_channel_id`
(`MsgChannelOpenInit` "requires the counterparty channel id be empty"). -/
def verifyEmptyChannelId (c : Counterparty) : Except ChannelError Unit :=
  match c.channel_id with
  | none => Except.ok ()
  | some ch => Except.error (ChannelError.InvalidChannelId ch.val)

/-- `ChannelEnd` (ics04_channel/channel.rs): state, ordering, remote
counterparty, connection hops and negotiated version, as in the spec's
data model. -/
structure ChannelEnd where
  state : ChanState
  ordering : Order
  remote : Counterparty
  connection_hops : List ConnectionId
  version : Version
  deriving DecidableEq, Repr

/-- The protobuf channel: integer state/ordering tags, optional
counterparty, hops as strings, version as a string. -/
structure RawChannel where
  state : Nat
  ordering : Nat
  counterparty : Option RawCounterparty
  connection_hops : List Str
  version : Str
  deriving DecidableEq, Repr

/-- Parses each connection-hop string with the connection-identifier
validator. -/
def parseHops (hs : List Str) : Except ChannelError (List ConnectionId) :=
  match hs with
  | [] => Except.ok []
  | s :: rest =>
    match parseConnectionId s with
    | Except.error e => Except.error (ChannelError.Identifier e)
    | Except.ok c =>
      match parseHops rest with
      | Except.error e => Except.error e
      | Except.ok cs => Except.ok (c :: cs)

/-- Modelled from the spec: `ChannelEnd::try_from(RawChannel)`; the state
and ordering tags are decoded, the counterparty is required, each hop is
parsed, and the version string is taken as-is. -/
def channelEndFromRaw (rc : RawChannel) : Except ChannelError ChannelEnd :=
  match chanStateFromI32 rc.state with
  | Except.error e => Except.error e
  | Except.ok st =>
    match orderFromI32 rc.ordering with
    | Except.error e => Except.error e
    | Except.ok ord =>
      match rc.counterparty with
      | none => Except.error ChannelError.MissingCounterparty
      | some rcx =>
        match counterpartyFromRaw rcx with
        | Except.error e => Except.error e
        | Except.ok cpty =>
          match parseHops rc.connection_hops with
          | Except.error e => Except.error e
          | Except.ok hops =>
            Except.ok (ChannelEnd.mk st ord cpty hops (Version.mk rc.version))

/-- `From<ChannelEnd> for RawChannel`: each component is encoded back. -/
def channelEndToRaw (ce : ChannelEnd) : RawChannel :=
  RawChannel.mk (chanStateToI32 ce.state) (orderToI32 ce.ordering)
    (some (counterpartyToRaw ce.remote))
    (ce.connection_hops.map ConnectionId.val)
    ce.version.val

/-- Modelled from the spec: `ChannelEnd::verify_state_matches` — execution
steps are "only invoked once the validation pass accepts the transition";
the conversions require an exact state. -/
def verifyStateMatches (expected actual : ChanState) : Except ChannelError Unit :=
  if actual = expected then Except.ok ()
  else Except.error (ChannelError.UnexpectedState expected actual)

/-- `Sequence` (ics04_channel/packet.rs): a `u64` newtype. -/
abbrev Sequence := Nat

/-- Modelled from the spec: `Sequence` has a "saturating increment"
(spec data model); the counter saturates at `u64::MAX`. -/
def sequenceIncrement (s : Sequence) : Sequence :=
  Nat.min (s + 1) u64Max

/-- `Packet` (ics04_channel/packet.rs): fields as in the spec's data
model. -/
structure Packet where
  seq_on_a : Sequence
  port_id_on_a : PortId
  chan_id_on_a : ChannelId
  port_id_on_b : PortId
  chan_id_on_b : ChannelId
  data : List Nat
  timeout_height_on_b : TimeoutHeight
  timeout_timestamp_on_b : Timestamp
  deriving DecidableEq, Repr

/-- The protobuf packet: plain strings and integers, optional raw timeout
height, nanosecond timeout timestamp with 0 as the unset sentinel. -/
structure RawPacket where
  sequence : Nat
  source_port : Str
  source_channel : Str
  destination_port : Str
  destination_channel : Str
  data : List Nat
  timeout_height : Option RawHeight
  timeout_timestamp : Nat
  deriving DecidableEq, Repr

/-- `PacketError` (ics04_channel/error.rs): the variants reachable from
the embedded code. -/
inductive PacketError where
  | MissingPacket
  | MissingHeight
  | InvalidProof
  | InvalidAcknowledgement
  | InvalidTimeoutHeight
  | Identifier (e : IdentifierError)
  | Channel (e : ChannelError)
  | LowPacketHeight (chain_height : Height) (timeout_height : TimeoutHeight)
  | LowPacketTimestamp
  | InvalidPacketSequence (given_sequence next_sequence : Sequence)
  deriving DecidableEq, Repr

/-- Modelled from the spec: decoding the raw optional timeout height; an
absent field or the literal zero height is the spec's "zero/min sentinel"
meaning no timeout, and any other height must satisfy the validity
invariant `revision_height > 0`. -/
def timeoutHeightFromRaw (o : Option RawHeight) : Except PacketError TimeoutHeight :=
  match o with
  | none => Except.ok none
  | some rh =>
    if rh.revision_number = 0 ∧ rh.revision_height = 0 then Except.ok none
    else match heightFromRaw rh with
      | none => Except.error PacketError.InvalidTimeoutHeight
      | some h => Except.ok (some h)

/-- Encoding a timeout height: the no-timeout sentinel becomes an absent
field. -/
def timeoutHeightToRaw (th : TimeoutHeight) : Option RawHeight :=
  th.map heightToRaw

/-- Modelled from the spec: `Timestamp::from_nanoseconds`; 0 is the unset
sentinel. -/
def timestampFromNanos (n : Nat) : Timestamp :=
  if n = 0 then none else some n

/-- Encoding a timestamp: the unset sentinel becomes 0. -/
def timestampToNanos (t : Timestamp) : Nat :=
  match t with
  | none => 0
  | some n => n

/-- Modelled from the spec: `Packet::try_from(RawPacket)`; the identifier
strings are parsed with their validators, and the timeout fields decoded
as above. -/
def packetFromRaw (rp : RawPacket) : Except PacketError Packet :=
  match parsePortId rp.source_port with
  | Except.error e => Except.error (PacketError.Identifier e)
  | Except.ok pa =>
    match parseChannelId rp.source_channel with
    | Except.error e => Except.error (PacketError.Identifier e)
    | Except.ok ca =>
      match parsePortId rp.destination_port with
      | Except.error e => Except.error (PacketError.Identifier e)
      | Except.ok pb =>
        match parseChannelId rp.destination_channel with
        | Except.error e => Except.error (PacketError.Identifier e)
        | Except.ok cb =>
          match timeoutHeightFromRaw rp.timeout_height with
          | Except.error e => Except.error e
          | Except.ok th =>
            Except.ok (Packet.mk rp.sequence pa ca pb cb rp.data th
              (timestampFromNanos rp.timeout_timestamp))

/-- `From<Packet> for RawPacket`: each component is encoded back. -/
def packetToRaw (p : Packet) : RawPacket :=
  RawPacket.mk p.seq_on_a p.port_id_on_a.val p.chan_id_on_a.val
    p.port_id_on_b.val p.chan_id_on_b.val p.data
    (timeoutHeightToRaw p.timeout_height_on_b)
    (timestampToNanos p.timeout_timestamp_on_b)

/-- The protobuf `MsgChannelOpenInit`: port id, optional channel, signer. -/
structure RawMsgChannelOpenInit where
  port_id : Str
  channel : Option RawChannel
  signer : Str
  deriving DecidableEq, Repr

/-- `MsgChannelOpenInit` (ics04_channel/msgs/chan_open_init.rs). -/
structure MsgChannelOpenInit where
  port_id_on_a : PortId
  connection_hops_on_a : List ConnectionId
  port_id_on_b : PortId
  ordering : Order
  signer : Signer
  version_proposal : Version
  deriving DecidableEq, Repr

/-- `TryFrom<RawMsgChannelOpenInit> for MsgChannelOpenInit`
(chan_open_init.rs, lines 55-75): the channel is required, its state must
be `Init`, the counterparty channel id must be empty, and the port id is
parsed. -/
def msgChanOpenInitFromRaw (raw : RawMsgChannelOpenInit) :
    Except ChannelError MsgChannelOpenInit :=
  match raw.channel with
  | none => Except.error ChannelError.MissingChannel
  | some rawCh =>
    match channelEndFromRaw rawCh with
    | Except.error e => Except.error e
    | Except.ok ce =>
      match verifyStateMatches ChanState.Init ce.state with
      | Except.error e => Except.error e
      | Except.ok _ =>
        match verifyEmptyChannelId ce.remote with
        | Except.error e => Except.error e
        | Except.ok _ =>
          match parsePortId raw.port_id with
          | Except.error e => Except.error (ChannelError.Identifier e)
          | Except.ok p =>
            Except.ok (MsgChannelOpenInit.mk p ce.connection_hops
              ce.remote.port_id ce.ordering (Signer.mk raw.signer) ce.version)

/-- `From<MsgChannelOpenInit> for RawMsgChannelOpenInit`
(chan_open_init.rs, lines 77-92): rebuilds the channel with state `Init`,
an absent counterparty channel id, and the proposed version. -/
def msgChanOpenInitToRaw (msg : MsgChannelOpenInit) : RawMsgChannelOpenInit :=
  RawMsgChannelOpenInit.mk msg.port_id_on_a.val
    (some (channelEndToRaw (ChannelEnd.mk ChanState.Init msg.ordering
      (Counterparty.mk msg.port_id_on_b none) msg.connection_hops_on_a
      msg.version_proposal)))
    msg.signer.val

/-- The protobuf `MsgChannelOpenTry`, with the deprecated
`previous_channel_id` field. -/
structure RawMsgChannelOpenTry where
  port_id : Str
  previous_channel_id : Str
  channel : Option RawChannel
  counterparty_version : Str
  proof_init : List Nat
  proof_height : Option RawHeight
  signer : Str
  deriving DecidableEq, Repr

/-- `MsgChannelOpenTry` (ics04_channel/msgs/chan_open_try.rs); the
deprecated `version_proposal` field is kept only for raw conversion. -/
structure MsgChannelOpenTry where
  port_id_on_b : PortId
  connection_hops_on_b : List ConnectionId
  port_id_on_a : PortId
  chan_id_on_a : ChannelId
  version_supported_on_a : Version
  proof_chan_end_on_a : CommitmentProofBytes
  proof_height_on_a : Height
  ordering : Order
  signer : Signer
  version_proposal : Version
  deriving DecidableEq, Repr

/-- `TryFrom<RawMsgChannelOpenTry> for MsgChannelOpenTry`
(chan_open_try.rs, lines 63-107): the channel is required and must be in
state `TryOpen`; a non-empty deprecated `previous_channel_id` is rejected
with `InvalidChannelId`; the counterparty channel id is required; the
proof must be non-empty and the proof height present and valid. -/
def msgChanOpenTryFromRaw (raw : RawMsgChannelOpenTry) :
    Except ChannelError MsgChannelOpenTry :=
  match raw.channel with
  | none => Except.error ChannelError.MissingChannel
  | some rawCh =>
    match channelEndFromRaw rawCh with
    | Except.error e => Except.error e
    | Except.ok ce =>
      match verifyStateMatches ChanState.TryOpen ce.state with
      | Except.error e => Except.error e
      | Except.ok _ =>
        if raw.previous_channel_id ≠ [] then
          Except.error (ChannelError.InvalidChannelId raw.previous_channel_id)
        else
          match parsePortId raw.port_id with
          | Except.error e => Except.error (ChannelError.Identifier e)
          | Except.ok p =>
            match ce.remote.channel_id with
            | none => Except.error ChannelError.MissingCounterparty
            | some chanA =>
              match proofFromBytes raw.proof_init with
              | none => Except.error ChannelError.InvalidProof
              | some proof =>
                match raw.proof_height.bind heightFromRaw with
                | none => Except.error ChannelError.MissingHeight
                | some h =>
                  Except.ok (MsgChannelOpenTry.mk p ce.connection_hops
                    ce.remote.port_id chanA (Version.mk raw.counterparty_version)
                    proof h ce.ordering (Signer.mk raw.signer) ce.version)

/-- `From<MsgChannelOpenTry> for RawMsgChannelOpenTry` (chan_open_try.rs,
lines 109-129): rebuilds the channel with state `TryOpen` and an **empty**
version ("Excessive field to satisfy the type conversion"), and writes an
empty deprecated `previous_channel_id`. -/
def msgChanOpenTryToRaw (msg : MsgChannelOpenTry) : RawMsgChannelOpenTry :=
  RawMsgChannelOpenTry.mk msg.port_id_on_b.val []
    (some (channelEndToRaw (ChannelEnd.mk ChanState.TryOpen msg.ordering
      (Counterparty.mk msg.port_id_on_a (some msg.chan_id_on_a))
      msg.connection_hops_on_b Version.empty)))
    msg.version_supported_on_a.val
    msg.proof_chan_end_on_a.val
    (some (heightToRaw msg.proof_height_on_a))
    msg.signer.val

/-- The protobuf `MsgAcknowledgement`. -/
structure RawMsgAcknowledgement where
  packet : Option RawPacket
  acknowledgement : List Nat
  proof_acked : List Nat
  proof_height : Option RawHeight
  signer : Str
  deriving DecidableEq, Repr

/-- `MsgAcknowledgement` (ics04_channel/msgs/acknowledgement.rs). -/
structure MsgAcknowledgement where
  packet : Packet
  acknowledgement : Acknowledgement
  proof_acked_on_b : CommitmentProofBytes
  proof_height_on_b : Height
  signer : Signer
  deriving DecidableEq, Repr

/-- `TryFrom<RawMsgAcknowledgement> for MsgAcknowledgement`
(acknowledgement.rs, lines 44-65): the packet is required and converted;
the acknowledgement must be non-empty; the proof must be non-empty; the
proof height must be present and valid (`MissingHeight` otherwise). -/
def msgAcknowledgementFromRaw (raw : RawMsgAcknowledgement) :
    Except PacketError MsgAcknowledgement :=
  match raw.packet with
  | none => Except.error PacketError.MissingPacket
  | some rawP =>
    match packetFromRaw rawP with
    | Except.error e => Except.error e
    | Except.ok p =>
      match ackFromBytes raw.acknowledgement with
      | none => Except.error PacketError.InvalidAcknowledgement
      | some ack =>
        match proofFromBytes raw.proof_acked with
        | none => Except.error PacketError.InvalidProof
        | some proof =>
          match raw.proof_height.bind heightFromRaw with
          | none => Except.error PacketError.MissingHeight
          | some h =>
            Except.ok (MsgAcknowledgement.mk p ack proof h (Signer.mk raw.signer))

/-- `From<MsgAcknowledgement> for RawMsgAcknowledgement`
(acknowledgement.rs, lines 67-77). -/
def msgAcknowledgementToRaw (msg : MsgAcknowledgement) : RawMsgAcknowledgement :=
  RawMsgAcknowledgement.mk (some (packetToRaw msg.packet))
    msg.acknowledgement.val msg.proof_acked_on_b.val
    (some (heightToRaw msg.proof_height_on_b)) msg.signer.val

/-- `ConnectionError` (ics03_connection/error.rs): the variants reachable
from the embedded conversion. -/
inductive ConnectionError where
  | InvalidIdentifier (e : IdentifierError)
  | InvalidProof
  | MissingProofHeight
  deriving DecidableEq, Repr

/-- The protobuf `MsgConnectionOpenConfirm`. -/
structure RawMsgConnectionOpenConfirm where
  connection_id : Str
  proof_ack : List Nat
  proof_height : Option RawHeight
  signer : Str
  deriving DecidableEq, Repr

/-- `MsgConnectionOpenConfirm` (ics03_connection/msgs/conn_open_confirm.rs). -/
structure MsgConnectionOpenConfirm where
  conn_id_on_b : ConnectionId
  proof_conn_end_on_a : CommitmentProofBytes
  proof_height_on_a : Height
  signer : Signer
  deriving DecidableEq, Repr

/-- `TryFrom<RawMsgConnectionOpenConfirm> for MsgConnectionOpenConfirm`
(conn_open_confirm.rs, lines 42-62): the connection id is parsed, the
proof must be non-empty, and the proof height present and valid
(`MissingProofHeight` otherwise). -/
def msgConnOpenConfirmFromRaw (raw : RawMsgConnectionOpenConfirm) :
    Except ConnectionError MsgConnectionOpenConfirm :=
  match parseConnectionId raw.connection_id with
  | Except.error e => Except.error (ConnectionError.InvalidIdentifier e)
  | Except.ok c =>
    match proofFromBytes raw.proof_ack with
    | none => Except.error ConnectionError.InvalidProof
    | some proof =>
      match raw.proof_height.bind heightFromRaw with
      | none => Except.error ConnectionError.MissingProofHeight
      | some h =>
        Except.ok (MsgConnectionOpenConfirm.mk c proof h (Signer.mk raw.signer))

/-- `From<MsgConnectionOpenConfirm> for RawMsgConnectionOpenConfirm`
(conn_open_confirm.rs, lines 64-73). -/
def msgConnOpenConfirmToRaw (msg : MsgConnectionOpenConfirm) :
    RawMsgConnectionOpenConfirm :=
  RawMsgConnectionOpenConfirm.mk msg.conn_id_on_b.val
    msg.proof_conn_end_on_a.val (some (heightToRaw msg.proof_height_on_a))
    msg.signer.val

/-- First-match lookup in an association list (the model of a host store
keyed by identifier paths). -/
def findMap {α β : Type} [DecidableEq α] : List (α × β) → α → Option β
  | [], _ => none
  | (k, v) :: rest, a => if k = a then some v else findMap rest a

/-- Store a value under a key (new binding shadows any old one). -/
def setMap {α β : Type} [DecidableEq α] (m : List (α × β)) (k : α) (v : β) :
    List (α × β) :=
  (k, v) :: m

/-- Modelled from the spec: the slice of `ConnectionEnd` consumed by
`send_packet` — the connection "references exactly one Client" and only
`client_id()` is read by the handler. -/
structure ConnectionEnd where
  client_id : ClientId
  deriving DecidableEq, Repr

/-- Modelled from the spec: the client-state capability consumed by
`send_packet` — a `status` and a `latest_height` (spec component 4.3). -/
structure ClientState where
  status : Status
  latest_height : Height
  deriving DecidableEq, Repr

/-- Modelled from the spec: the consensus-state capability — it "exposes
`timestamp()`". -/
structure ConsensusState where
  timestamp : Timestamp
  deriving DecidableEq, Repr

/-- Modelled from the spec: `PacketCommitment` is "a fixed-size digest
computed from (data, timeout_height, timeout_timestamp)"; the digest is
modelled as the (injectively hashed) triple itself. -/
structure PacketCommitment where
  data : List Nat
  timeout_height : TimeoutHeight
  timeout_timestamp : Timestamp
  deriving DecidableEq, Repr

/-- `compute_packet_commitment` (ics04_channel/commitment.rs): the digest
of the packet's data and timeout fields. -/
def compute_packet_commitment (data : List Nat) (timeout_height : TimeoutHeight)
    (timeout_timestamp : Timestamp) : PacketCommitment :=
  PacketCommitment.mk data timeout_height timeout_timestamp

/-- `IbcEvent` (core/events.rs): the events emitted by `send_packet` — the
`SendPacket` domain event and the generic `Message(Channel)` marker. -/
inductive IbcEvent where
  | SendPacket (packet : Packet) (ordering : Order) (conn_id : ConnectionId)
  | MessageChannel
  deriving DecidableEq, Repr

/-- `ContextError` (core/context.rs): the umbrella error crossing
host-context calls, preserving the originating variant; store-miss errors
mirror the host context's not-found variants. -/
inductive ContextError where
  | Channel (e : ChannelError)
  | Packet (e : PacketError)
  | Client (e : ClientError)
  | ChannelNotFound (port_id : PortId) (channel_id : ChannelId)
  | ConnectionNotFound (connection_id : ConnectionId)
  | ClientStateNotFound (client_id : ClientId)
  | ConsensusStateNotFound (client_id : ClientId) (height : Height)
  | MissingNextSendSeq (port_id : PortId) (channel_id : ChannelId)
  | MissingConnectionHop
  | CounterpartyMismatch
  deriving DecidableEq, Repr

/-- The host state behind `SendPacketValidationContext` /
`SendPacketExecutionContext` (ics04_channel/context.rs), modelled as
finite stores keyed the way the context traits key their lookups:
channels and send-sequences by `(port, channel)`, commitments by
`(port, channel, sequence)`, consensus states by `(client, height)`. -/
structure Ctx where
  channels : List ((PortId × ChannelId) × ChannelEnd)
  connections : List (ConnectionId × ConnectionEnd)
  client_states : List (ClientId × ClientState)
  consensus_states : List ((ClientId × Height) × ConsensusState)
  next_sequence_send : List ((PortId × ChannelId) × Sequence)
  commitments : List ((PortId × ChannelId × Sequence) × PacketCommitment)
  events : List IbcEvent
  logs : List Str
  deriving DecidableEq, Repr

/-- Modelled from the spec: `ChannelEnd::verify_not_closed` — "channel
must not be `Closed`". -/
def verifyNotClosed (ce : ChannelEnd) : Except ContextError Unit :=
  if ce.state = ChanState.Closed then
    Except.error (ContextError.Channel
      (ChannelError.UnexpectedState ChanState.Closed ce.state))
  else Except.ok ()

/-- Modelled from the spec: `ChannelEnd::verify_counterparty_matches` —
the packet's "counterparty port/channel ... must match the channel's
counterparty". -/
def verifyCounterpartyMatches (ce : ChannelEnd) (expected : Counterparty) :
    Except ContextError Unit :=
  if ce.remote = expected then Except.ok ()
  else Except.error ContextError.CounterpartyMismatch

/-- `send_packet_validate` (handler/send_packet.rs, lines 32-97): fetch
the channel end; require it not `Closed`; require the counterparty to
match the packet's destination; follow the first connection hop to the
connection, its client state, and require `Active` status; reject a
timeout height not strictly above the client's latest height
(`LowPacketHeight`); reject an `Expired` timeout timestamp relative to the
latest consensus timestamp (`LowPacketTimestamp`); require the packet
sequence to equal the stored `next_sequence_send`
(`InvalidPacketSequence`).  Read-only: the context is never modified. -/
def send_packet_validate (ctx_a : Ctx) (packet : Packet) :
    Except ContextError Unit :=
  match findMap ctx_a.channels (packet.port_id_on_a, packet.chan_id_on_a) with
  | none => Except.error (ContextError.ChannelNotFound packet.port_id_on_a packet.chan_id_on_a)
  | some chan_end_on_a =>
    match verifyNotClosed chan_end_on_a with
    | Except.error e => Except.error e
    | Except.ok _ =>
      match verifyCounterpartyMatches chan_end_on_a
          (Counterparty.mk packet.port_id_on_b (some packet.chan_id_on_b)) with
      | Except.error e => Except.error e
      | Except.ok _ =>
        match chan_end_on_a.connection_hops with
        | [] => Except.error ContextError.MissingConnectionHop
        | conn_id_on_a :: _ =>
          match findMap ctx_a.connections conn_id_on_a with
          | none => Except.error (ContextError.ConnectionNotFound conn_id_on_a)
          | some conn_end_on_a =>
            match findMap ctx_a.client_states conn_end_on_a.client_id with
            | none => Except.error (ContextError.ClientStateNotFound conn_end_on_a.client_id)
            | some client_state_of_b_on_a =>
              if !client_state_of_b_on_a.status.is_active then
                Except.error (ContextError.Client
                  (ClientError.ClientNotActive client_state_of_b_on_a.status))
              else
                let latest_height_on_a := client_state_of_b_on_a.latest_height
                if timeoutHeightHasExpired packet.timeout_height_on_b latest_height_on_a then
                  Except.error (ContextError.Packet
                    (PacketError.LowPacketHeight latest_height_on_a packet.timeout_height_on_b))
                else
                  match findMap ctx_a.consensus_states
                      (conn_end_on_a.client_id, latest_height_on_a) with
                  | none => Except.error (ContextError.ConsensusStateNotFound
                      conn_end_on_a.client_id latest_height_on_a)
                  | some consensus_state_of_b_on_a =>
                    if checkExpiry consensus_state_of_b_on_a.timestamp
                        packet.timeout_timestamp_on_b = Expiry.Expired then
                      Except.error (ContextError.Packet PacketError.LowPacketTimestamp)
                    else
                      match findMap ctx_a.next_sequence_send
                          (packet.port_id_on_a, packet.chan_id_on_a) with
                      | none => Except.error (ContextError.MissingNextSendSeq
                          packet.port_id_on_a packet.chan_id_on_a)
                      | some next_seq_send_on_a =>
                        if packet.seq_on_a ≠ next_seq_send_on_a then
                          Except.error (ContextError.Packet
                            (PacketError.InvalidPacketSequence packet.seq_on_a next_seq_send_on_a))
                        else Except.ok ()

/-- `send_packet_execute` (handler/send_packet.rs, lines 102-139): read
the current `next_sequence_send` and store its increment; store the packet
commitment at `(port, channel, packet.seq_on_a)`; then re-read the channel
end for the event, log, and emit the `Message(Channel)` marker followed by
the `SendPacket` event.  The pair result carries the context as mutated so
far, mirroring the `&mut` receiver: an error after a store keeps the
store. -/
def send_packet_execute (ctx_a : Ctx) (packet : Packet) :
    Option ContextError × Ctx :=
  match findMap ctx_a.next_sequence_send (packet.port_id_on_a, packet.chan_id_on_a) with
  | none => (some (ContextError.MissingNextSendSeq packet.port_id_on_a packet.chan_id_on_a), ctx_a)
  | some next_seq_send_on_a =>
    let ctx1 :=
      { ctx_a with
        next_sequence_send := setMap ctx_a.next_sequence_send
          (packet.port_id_on_a, packet.chan_id_on_a)
          (sequenceIncrement next_seq_send_on_a) }
    let ctx2 :=
      { ctx1 with
        commitments := setMap ctx1.commitments
          (packet.port_id_on_a, packet.chan_id_on_a, packet.seq_on_a)
          (compute_packet_commitment packet.data packet.timeout_height_on_b
            packet.timeout_timestamp_on_b) }
    match findMap ctx2.channels (packet.port_id_on_a, packet.chan_id_on_a) with
    | none => (some (ContextError.ChannelNotFound packet.port_id_on_a packet.chan_id_on_a), ctx2)
    | some chan_end_on_a =>
      match chan_end_on_a.connection_hops with
      | [] => (some ContextError.MissingConnectionHop, ctx2)
      | conn_id_on_a :: _ =>
        let ctx3 :=
          { ctx2 with
            logs := ctx2.logs ++ [['s', 'e', 'n', 't']] }
        let ctx4 :=
          { ctx3 with
            events := ctx3.events ++ [IbcEvent.MessageChannel,
              IbcEvent.SendPacket packet chan_end_on_a.ordering conn_id_on_a] }
        (none, ctx4)

/-- `send_packet` (handler/send_packet.rs, lines 23-29): validate, then —
only on success — execute.  A validation error is returned as-is and the
context is untouched. -/
def send_packet (ctx_a : Ctx) (packet : Packet) : Option ContextError × Ctx :=
  match send_packet_validate ctx_a packet with
  | Except.error e => (some e, ctx_a)
  | Except.ok _ => send_packet_execute ctx_a packet

deriving instance DecidableEq for Except

/-- The ceiling-division form of the block delay: for a non-zero divisor
the helper computes `ceil(d / m) = (d + m - 1) / m`. -/
theorem calculate_block_delay_ceil (d m : Nat) (hm : m ≠ 0) :
    calculate_block_delay d m = (d + m - 1) / m := by
  have hm0 : 0 < m := Nat.pos_of_ne_zero hm
  have hrew : d + m - 1 = d + (m - 1) := by omega
  unfold calculate_block_delay
  rw [if_neg hm, hrew, Nat.add_div hm0]
  have h1 : (m - 1) / m = 0 := Nat.div_eq_of_lt (by omega)
  have h2 : (m - 1) % m = m - 1 := Nat.mod_eq_of_lt (by omega)
  rw [h1, h2]
  by_cases h : d % m = 0
  · rw [if_pos h, h]
    have hc : ¬ (m ≤ 0 + (m - 1)) := by omega
    rw [if_neg hc]
    omega
  · rw [if_neg h]
    have hd : 1 ≤ d % m := Nat.one_le_iff_ne_zero.mpr h
    have hc : m ≤ d % m + (m - 1) := by omega
    rw [if_pos hc]

/-- C4: `calculate_block_delay(d, m)` equals `ceil(d / m)` for `m ≠ 0`;
`m = 0` yields 0 and `d = 0` yields 0 regardless of `m`; and the six
concrete cases `(10,2)=5`, `(10,3)=4`, `(10,0)=0`, `(0,2)=0`, `(0,0)=0`,
`(10,11)=1` hold. -/
theorem C4_calculate_block_delay :
    (∀ d m : Nat, m ≠ 0 → calculate_block_delay d m = (d + m - 1) / m) ∧
    (∀ d : Nat, calculate_block_delay d 0 = 0) ∧
    (∀ m : Nat, calculate_block_delay 0 m = 0) ∧
    calculate_block_delay 10 2 = 5 ∧ calculate_block_delay 10 3 = 4 ∧
    calculate_block_delay 10 0 = 0 ∧ calculate_block_delay 0 2 = 0 ∧
    calculate_block_delay 0 0 = 0 ∧ calculate_block_delay 10 11 = 1 := by
  refine ⟨calculate_block_delay_ceil, ?_, ?_, by decide, by decide, by decide,
    by decide, by decide, by decide⟩
  · intro d
    simp [calculate_block_delay]
  · intro m
    unfold calculate_block_delay
    by_cases hm : m = 0
    · simp [hm]
    · simp [hm, Nat.zero_mod, Nat.zero_div]

/-- C4 witness: the general ceiling form applied at `(10, 3)`. -/
theorem C4_calculate_block_delay_witness :
    calculate_block_delay 10 3 = (10 + 3 - 1) / 3 :=
  C4_calculate_block_delay.1 10 3 (by decide)

/-- The character check succeeds exactly when the id has no separator and
every character is allowed. -/
theorem validate_identifier_chars_ok_iff (s : Str) :
    validate_identifier_chars s = Except.ok () ↔
      (pathSeparator ∉ s ∧ ∀ c ∈ s, allowedIdentChar c = true) := by
  unfold validate_identifier_chars
  by_cases h1 : pathSeparator ∈ s
  · simp [h1]
  · by_cases h2 : ∀ c ∈ s, allowedIdentChar c = true
    · simp [h1, h2]
    · have h2e : ∃ c ∈ s, allowedIdentChar c = false := by
        push_neg at h2
        obtain ⟨c, hc, hcf⟩ := h2
        exact ⟨c, hc, by simpa using hcf⟩
      simp [h1, h2e]

/-- The length check succeeds exactly when the byte length lies in the
window after the minimum is raised to at least 1. -/
theorem validate_identifier_length_ok_iff (s : Str) (min max : Nat) :
    validate_identifier_length s min max = Except.ok () ↔
      (Nat.max min 1 ≤ strLen s ∧ strLen s ≤ max) := by
  unfold validate_identifier_length
  by_cases h : Nat.max min 1 ≤ strLen s ∧ strLen s ≤ max
  · simp [h]
  · simp only [if_neg h]
    constructor
    · intro hh
      cases hh
    · intro hh
      exact absurd hh h

/-- Sequencing two unit-valued `Except` computations succeeds exactly when
both succeed. -/
theorem except_seq_ok_iff {ε : Type} (a b : Except ε Unit) :
    (do let _ ← a; b) = Except.ok () ↔
      (a = Except.ok () ∧ b = Except.ok ()) := by
  cases a with
  | error e => simp [Bind.bind, Except.bind]
  | ok u =>
    cases u
    simp [Bind.bind, Except.bind]

/-- C5: each type-specific validator succeeds exactly when the byte length
lies in the type's window (Client 9-64, Connection 10-64, Port 2-128,
Channel 8-64), every character is alphanumeric or in the special set, and
the id has no `/`; the character check alone accepts the empty string,
fails with `ContainSeparator` on a `/`, and with `InvalidCharacter` on any
other disallowed character. -/
theorem C5_identifier_validators :
    (∀ s : Str, validate_client_identifier s = Except.ok () ↔
      (9 ≤ strLen s ∧ strLen s ≤ 64 ∧ (∀ c ∈ s, allowedIdentChar c = true) ∧
        pathSeparator ∉ s)) ∧
    (∀ s : Str, validate_connection_identifier s = Except.ok () ↔
      (10 ≤ strLen s ∧ strLen s ≤ 64 ∧ (∀ c ∈ s, allowedIdentChar c = true) ∧
        pathSeparator ∉ s)) ∧
    (∀ s : Str, validate_port_identifier s = Except.ok () ↔
      (2 ≤ strLen s ∧ strLen s ≤ 128 ∧ (∀ c ∈ s, allowedIdentChar c = true) ∧
        pathSeparator ∉ s)) ∧
    (∀ s : Str, validate_channel_identifier s = Except.ok () ↔
      (8 ≤ strLen s ∧ strLen s ≤ 64 ∧ (∀ c ∈ s, allowedIdentChar c = true) ∧
        pathSeparator ∉ s)) ∧
    validate_identifier_chars [] = Except.ok () ∧
    (∀ s : Str, pathSeparator ∈ s →
      validate_identifier_chars s = Except.error (IdentifierError.ContainSeparator s)) ∧
    (∀ s : Str, pathSeparator ∉ s → ¬(∀ c ∈ s, allowedIdentChar c = true) →
      validate_identifier_chars s = Except.error (IdentifierError.InvalidCharacter s)) := by
  have hcomp : ∀ (s : Str) (lo hi : Nat), Nat.max lo 1 = lo →
      ((do let _ ← validate_identifier_chars s
           validate_identifier_length s lo hi) = Except.ok () ↔
        (lo ≤ strLen s ∧ strLen s ≤ hi ∧ (∀ c ∈ s, allowedIdentChar c = true) ∧
          pathSeparator ∉ s)) := by
    intro s lo hi hlo
    rw [except_seq_ok_iff, validate_identifier_chars_ok_iff,
      validate_identifier_length_ok_iff, hlo]
    tauto
  refine ⟨?_, ?_, ?_, ?_, by decide, ?_, ?_⟩
  · intro s
    exact hcomp s 9 64 (by decide)
  · intro s
    exact hcomp s 10 64 (by decide)
  · intro s
    exact hcomp s 2 128 (by decide)
  · intro s
    exact hcomp s 8 64 (by decide)
  · intro s h
    unfold validate_identifier_chars
    simp [h]
  · intro s h1 h2
    have h2e : ∃ c ∈ s, allowedIdentChar c = false := by
      push_neg at h2
      obtain ⟨c, hc, hcf⟩ := h2
      exact ⟨c, hc, by simpa using hcf⟩
    unfold validate_identifier_chars
    simp [h1, h2e]

/-- C5 witness: the client validator accepts `07-tendermint`, and the
character check flags `id/1` and `ch@1` with the stated errors. -/
theorem C5_identifier_validators_witness :
    validate_client_identifier
      ['0', '7', '-', 't', 'e', 'n', 'd', 'e', 'r', 'm', 'i', 'n', 't'] =
      Except.ok () ∧
    validate_identifier_chars ['i', 'd', '/', '1'] =
      Except.error (IdentifierError.ContainSeparator ['i', 'd', '/', '1']) ∧
    validate_identifier_chars ['c', 'h', '@', '1'] =
      Except.error (IdentifierError.InvalidCharacter ['c', 'h', '@', '1']) := by
  refine ⟨?_, ?_, ?_⟩
  · exact (C5_identifier_validators.1 _).mpr (by decide)
  · exact C5_identifier_validators.2.2.2.2.2.1 _ (by decide)
  · exact C5_identifier_validators.2.2.2.2.2.2 _ (by decide) (by decide)

/-- C6 counterexample: the claim predicts that the empty prefix is
accepted for bounds `(2, 64)` (length 0 lies in `[2-2, 64-21] = [0, 43]`),
but `validate_prefix_length` rejects it: the inner length validator raises
the lower bound to 1. -/
theorem C6_validate_prefix_length_counterexample :
    ¬ (validate_prefix_length [] 2 64 = Except.ok () ↔
        (2 - 2 ≤ strLen ([] : Str) ∧ strLen ([] : Str) ≤ 64 - 21)) := by
  decide

/-- C6 (amended): `validate_prefix_length(prefix, min_id, max_id)`
succeeds exactly when the prefix length lies within
`[max(min_id - 2, 1), max_id - 21]` (subtraction saturating at 0): the
lower bound saturates at 1 rather than 0, because the inner
`validate_identifier_length` raises its minimum to at least 1, so the
empty prefix is always rejected. -/
theorem C6_validate_prefix_length :
    ∀ (pfx : Str) (min_id max_id : Nat),
      validate_prefix_length pfx min_id max_id = Except.ok () ↔
        (Nat.max (min_id - 2) 1 ≤ strLen pfx ∧ strLen pfx ≤ max_id - 21) := by
  intro pfx min_id max_id
  unfold validate_prefix_length
  exact validate_identifier_length_ok_iff pfx (min_id - 2) (max_id - 21)

/-- C7: `TrustThreshold::new(num, den)` succeeds exactly when
`num ≤ den`, not (`num = den` and `num ≠ 0`), and not (`den = 0` and
`num ≠ 0`); otherwise it fails with `InvalidTrustThreshold` carrying the
rejected pair. -/
theorem C7_trust_threshold_new :
    ∀ n d : Nat,
      (TrustThreshold.new n d = Except.ok (TrustThreshold.mk n d) ↔
        (n ≤ d ∧ ¬(n = d ∧ n ≠ 0) ∧ ¬(d = 0 ∧ n ≠ 0))) ∧
      (¬(n ≤ d ∧ ¬(n = d ∧ n ≠ 0) ∧ ¬(d = 0 ∧ n ≠ 0)) →
        TrustThreshold.new n d = Except.error (ClientError.InvalidTrustThreshold n d)) := by
  intro n d
  unfold TrustThreshold.new
  by_cases h : n > d ∨ (d = 0 ∧ n ≠ 0) ∨ (n = d ∧ n ≠ 0)
  · rw [if_pos h]
    constructor
    · constructor
      · intro hh
        cases hh
      · intro hh
        exfalso
        omega
    · intro _
      rfl
  · rw [if_neg h]
    constructor
    · constructor
      · intro _
        omega
      · intro _
        rfl
    · intro hh
      exfalso
      omega

/-- C7 witness: `new(1,3)` succeeds with the stored pair `(1,3)`;
`new(2,1)` fails with `InvalidTrustThreshold(2,1)`. -/
theorem C7_trust_threshold_new_witness :
    TrustThreshold.new 1 3 = Except.ok (TrustThreshold.mk 1 3) ∧
    TrustThreshold.new 2 1 = Except.error (ClientError.InvalidTrustThreshold 2 1) :=
  ⟨(C7_trust_threshold_new 1 3).1.mpr (by decide),
   (C7_trust_threshold_new 2 1).2 (by decide)⟩

/-- Looking up the key just stored returns the stored value. -/
theorem findMap_set_same {α β : Type} [DecidableEq α] (m : List (α × β))
    (k : α) (v : β) : findMap (setMap m k v) k = some v := by
  simp [findMap, setMap]

/-- C2: whenever `send_packet_validate` returns an error — in particular
`LowPacketHeight` when the packet's timeout height has expired against the
client's latest height — `send_packet` returns that same error and leaves
the context untouched (so `next_sequence_send`, all commitments, and the
event log are unchanged). -/
theorem C2_send_packet_validate_error_no_mutation :
    (∀ (ctx_a : Ctx) (packet : Packet) (e : ContextError),
      send_packet_validate ctx_a packet = Except.error e →
      send_packet ctx_a packet = (some e, ctx_a)) ∧
    (∀ (ctx_a : Ctx) (packet : Packet) (ce : ChannelEnd) (cid : ConnectionId)
        (rest : List ConnectionId) (conn : ConnectionEnd) (cs : ClientState),
      findMap ctx_a.channels (packet.port_id_on_a, packet.chan_id_on_a) = some ce →
      ce.state ≠ ChanState.Closed →
      ce.remote = Counterparty.mk packet.port_id_on_b (some packet.chan_id_on_b) →
      ce.connection_hops = cid :: rest →
      findMap ctx_a.connections cid = some conn →
      findMap ctx_a.client_states conn.client_id = some cs →
      cs.status = Status.Active →
      timeoutHeightHasExpired packet.timeout_height_on_b cs.latest_height = true →
      send_packet_validate ctx_a packet =
        Except.error (ContextError.Packet
          (PacketError.LowPacketHeight cs.latest_height packet.timeout_height_on_b))) := by
  constructor
  · intro ctx_a packet e h
    simp only [send_packet, h]
  · intro ctx_a packet ce cid rest conn cs hch hstate hrem hhops hconn hclient
      hactive hth
    simp only [send_packet_validate, hch, verifyNotClosed, verifyCounterpartyMatches,
      hrem, hhops, hconn, hclient, hactive, Status.is_active, hth, if_neg hstate]
    simp

/-- Fixture: a valid source port id, `transfer`. -/
def samplePortA : PortId := PortId.mk ['t', 'r', 'a', 'n', 's', 'f', 'e', 'r']

/-- Fixture: a valid source channel id, `channel-0`. -/
def sampleChanA : ChannelId := ChannelId.mk ['c', 'h', 'a', 'n', 'n', 'e', 'l', '-', '0']

/-- Fixture: a valid destination port id, `transfer2`. -/
def samplePortB : PortId := PortId.mk ['t', 'r', 'a', 'n', 's', 'f', 'e', 'r', '2']

/-- Fixture: a valid destination channel id, `channel-1`. -/
def sampleChanB : ChannelId := ChannelId.mk ['c', 'h', 'a', 'n', 'n', 'e', 'l', '-', '1']

/-- Fixture: a valid connection id, `connection-0`. -/
def sampleConn : ConnectionId :=
  ConnectionId.mk ['c', 'o', 'n', 'n', 'e', 'c', 't', 'i', 'o', 'n', '-', '0']

/-- Fixture: a valid client id, `07-tendermint-0`. -/
def sampleClient : ClientId :=
  ClientId.mk ['0', '7', '-', 't', 'e', 'n', 'd', 'e', 'r', 'm', 'i', 'n', 't', '-', '0']

/-- Fixture: an `Open` channel end from `(transfer, channel-0)` towards
`(transfer2, channel-1)` over `connection-0`. -/
def sampleChanEnd : ChannelEnd :=
  ChannelEnd.mk ChanState.Open Order.Unordered
    (Counterparty.mk samplePortB (some sampleChanB)) [sampleConn]
    (Version.mk ['i', 'c', 's', '2', '0', '-', '1'])

/-- Fixture: a host context with the sample channel open, its connection
and an `Active` client at latest height `(0, 10)` whose consensus
timestamp is 500, and `next_sequence_send = 1`. -/
def sampleCtx : Ctx :=
  Ctx.mk [((samplePortA, sampleChanA), sampleChanEnd)]
    [(sampleConn, ConnectionEnd.mk sampleClient)]
    [(sampleClient, ClientState.mk Status.Active (Height.mk 0 10))]
    [((sampleClient, Height.mk 0 10), ConsensusState.mk (some 500))]
    [((samplePortA, sampleChanA), 1)]
    [] [] []

/-- Fixture: a packet on the sample channel with sequence 1, an unexpired
timeout height `(0, 20)` and timeout timestamp 1000. -/
def samplePacket : Packet :=
  Packet.mk 1 samplePortA sampleChanA samplePortB sampleChanB [7, 8]
    (some (Height.mk 0 20)) (some 1000)

/-- C2 witness: the sample packet with an expired timeout height `(0, 5)`
(at or below the client's latest height `(0, 10)`) makes `send_packet`
fail with `LowPacketHeight` and return the context unchanged. -/
theorem C2_send_packet_validate_error_no_mutation_witness :
    send_packet sampleCtx
      (Packet.mk 1 samplePortA sampleChanA samplePortB sampleChanB [7, 8]
        (some (Height.mk 0 5)) (some 1000)) =
      (some (ContextError.Packet (PacketError.LowPacketHeight (Height.mk 0 10)
        (some (Height.mk 0 5)))), sampleCtx) :=
  C2_send_packet_validate_error_no_mutation.1 _ _ _
    (C2_send_packet_validate_error_no_mutation.2 _ _ sampleChanEnd sampleConn []
      (ConnectionEnd.mk sampleClient) (ClientState.mk Status.Active (Height.mk 0 10))
      (by decide) (by decide) (by decide) (by decide) (by decide) (by decide)
      (by decide) (by decide))

/-- On the happy path up to the sequence check, validation reduces to the
sequence comparison against the stored `next_sequence_send`. -/
theorem send_packet_validate_reduction
    (ctx_a : Ctx) (packet : Packet) (ce : ChannelEnd) (cid : ConnectionId)
    (rest : List ConnectionId) (conn : ConnectionEnd) (cs : ClientState)
    (cons : ConsensusState) (n : Sequence)
    (hch : findMap ctx_a.channels (packet.port_id_on_a, packet.chan_id_on_a) = some ce)
    (hstate : ce.state ≠ ChanState.Closed)
    (hrem : ce.remote = Counterparty.mk packet.port_id_on_b (some packet.chan_id_on_b))
    (hhops : ce.connection_hops = cid :: rest)
    (hconn : findMap ctx_a.connections cid = some conn)
    (hclient : findMap ctx_a.client_states conn.client_id = some cs)
    (hactive : cs.status = Status.Active)
    (hth : timeoutHeightHasExpired packet.timeout_height_on_b cs.latest_height = false)
    (hcons : findMap ctx_a.consensus_states (conn.client_id, cs.latest_height) = some cons)
    (hexp : checkExpiry cons.timestamp packet.timeout_timestamp_on_b ≠ Expiry.Expired)
    (hseq : findMap ctx_a.next_sequence_send
      (packet.port_id_on_a, packet.chan_id_on_a) = some n) :
    send_packet_validate ctx_a packet =
      if packet.seq_on_a ≠ n then
        Except.error (ContextError.Packet
          (PacketError.InvalidPacketSequence packet.seq_on_a n))
      else Except.ok () := by
  simp only [send_packet_validate, hch, verifyNotClosed, if_neg hstate,
    verifyCounterpartyMatches, hrem, if_pos rfl, hhops, hconn, hclient, hactive,
    Status.is_active, Bool.not_true, Bool.false_eq_true, if_false, hth, hcons,
    if_neg hexp, hseq, if_true]

/-- Under the three store lookups it performs, execution reduces to the
stored-increment / stored-commitment / event-appending context update. -/
theorem send_packet_execute_reduction
    (ctx_a : Ctx) (packet : Packet) (ce : ChannelEnd) (cid : ConnectionId)
    (rest : List ConnectionId) (n : Sequence)
    (hch : findMap ctx_a.channels (packet.port_id_on_a, packet.chan_id_on_a) = some ce)
    (hhops : ce.connection_hops = cid :: rest)
    (hseq : findMap ctx_a.next_sequence_send
      (packet.port_id_on_a, packet.chan_id_on_a) = some n) :
    send_packet_execute ctx_a packet =
      (none,
        { ctx_a with
          next_sequence_send := setMap ctx_a.next_sequence_send
            (packet.port_id_on_a, packet.chan_id_on_a) (sequenceIncrement n)
          commitments := setMap ctx_a.commitments
            (packet.port_id_on_a, packet.chan_id_on_a, packet.seq_on_a)
            (compute_packet_commitment packet.data packet.timeout_height_on_b
              packet.timeout_timestamp_on_b)
          logs := ctx_a.logs ++ [['s', 'e', 'n', 't']]
          events := ctx_a.events ++ [IbcEvent.MessageChannel,
            IbcEvent.SendPacket packet ce.ordering cid] }) := by
  simp only [send_packet_execute, hseq, hch, hhops]

/-- C1 (amended): for a channel that exists and is not `Closed`, whose
counterparty matches the packet's destination, whose connection's client
is `Active`, and whose timeout height and timestamp have not expired
(against the client's latest height and that height's consensus
timestamp), `send_packet` succeeds exactly when `packet.seq_on_a` equals
the stored `next_sequence_send`; after a successful send the stored
counter is the saturating increment of its previous value — exactly one
greater whenever the previous value is below `u64::MAX` — and the
commitment stored at the packet's path is
`hash(data, timeout_height_on_b, timeout_timestamp_on_b)`. -/
theorem C1_send_packet_sequencing
    (ctx_a : Ctx) (packet : Packet) (ce : ChannelEnd) (cid : ConnectionId)
    (rest : List ConnectionId) (conn : ConnectionEnd) (cs : ClientState)
    (cons : ConsensusState) (n : Sequence)
    (hch : findMap ctx_a.channels (packet.port_id_on_a, packet.chan_id_on_a) = some ce)
    (hstate : ce.state ≠ ChanState.Closed)
    (hrem : ce.remote = Counterparty.mk packet.port_id_on_b (some packet.chan_id_on_b))
    (hhops : ce.connection_hops = cid :: rest)
    (hconn : findMap ctx_a.connections cid = some conn)
    (hclient : findMap ctx_a.client_states conn.client_id = some cs)
    (hactive : cs.status = Status.Active)
    (hth : timeoutHeightHasExpired packet.timeout_height_on_b cs.latest_height = false)
    (hcons : findMap ctx_a.consensus_states (conn.client_id, cs.latest_height) = some cons)
    (hexp : checkExpiry cons.timestamp packet.timeout_timestamp_on_b ≠ Expiry.Expired)
    (hseq : findMap ctx_a.next_sequence_send
      (packet.port_id_on_a, packet.chan_id_on_a) = some n) :
    ((send_packet ctx_a packet).1 = none ↔ packet.seq_on_a = n) ∧
    (packet.seq_on_a = n →
      findMap (send_packet ctx_a packet).2.next_sequence_send
        (packet.port_id_on_a, packet.chan_id_on_a) = some (sequenceIncrement n) ∧
      findMap (send_packet ctx_a packet).2.commitments
        (packet.port_id_on_a, packet.chan_id_on_a, packet.seq_on_a) =
        some (compute_packet_commitment packet.data packet.timeout_height_on_b
          packet.timeout_timestamp_on_b)) ∧
    (n < u64Max → sequenceIncrement n = n + 1) := by
  have hv := send_packet_validate_reduction ctx_a packet ce cid rest conn cs cons n
    hch hstate hrem hhops hconn hclient hactive hth hcons hexp hseq
  have he := send_packet_execute_reduction ctx_a packet ce cid rest n hch hhops hseq
  by_cases hs : packet.seq_on_a = n
  · rw [if_neg (by simpa using hs)] at hv
    have hsend : send_packet ctx_a packet = send_packet_execute ctx_a packet := by
      simp only [send_packet, hv]
    refine ⟨?_, ?_, ?_⟩
    · rw [hsend, he]
      simpa using hs
    · intro _
      rw [hsend, he]
      exact ⟨findMap_set_same _ _ _, findMap_set_same _ _ _⟩
    · intro hlt
      simp [sequenceIncrement, Nat.min_eq_left (Nat.succ_le_of_lt hlt)]
  · rw [if_pos (by simpa using hs)] at hv
    have hsend : send_packet ctx_a packet =
        (some (ContextError.Packet (PacketError.InvalidPacketSequence packet.seq_on_a n)),
          ctx_a) := by
      simp only [send_packet, hv]
    refine ⟨?_, ?_, ?_⟩
    · rw [hsend]
      simpa using hs
    · intro hcontra
      exact absurd hcontra hs
    · intro hlt
      simp [sequenceIncrement, Nat.min_eq_left (Nat.succ_le_of_lt hlt)]

/-- Fixture: the sample context with the send counter at `u64::MAX`. -/
def ctxMaxSeq : Ctx :=
  { sampleCtx with next_sequence_send := [((samplePortA, sampleChanA), u64Max)] }

/-- Fixture: the sample packet with sequence `u64::MAX`. -/
def packetMaxSeq : Packet := { samplePacket with seq_on_a := u64Max }

/-- C1 counterexample: with the stored counter at `u64::MAX` and a
matching packet sequence, `send_packet` succeeds, yet the new stored
counter is `u64::MAX` again — not "exactly one greater than before" as the
claim states, because the spec's sequence increment saturates. -/
theorem C1_send_packet_sequencing_counterexample :
    (send_packet ctxMaxSeq packetMaxSeq).1 = none ∧
    findMap (send_packet ctxMaxSeq packetMaxSeq).2.next_sequence_send
      (samplePortA, sampleChanA) = some u64Max ∧
    ¬ findMap (send_packet ctxMaxSeq packetMaxSeq).2.next_sequence_send
      (samplePortA, sampleChanA) = some (u64Max + 1) := by
  decide

/-- C1 witness: on the sample context (counter 1) and sample packet
(sequence 1, unexpired timeouts), `send_packet` succeeds, the counter
becomes `sequenceIncrement 1 = 2`, and the commitment of the packet's
data and timeouts is stored at its path. -/
theorem C1_send_packet_sequencing_witness :
    (send_packet sampleCtx samplePacket).1 = none ∧
    findMap (send_packet sampleCtx samplePacket).2.next_sequence_send
      (samplePortA, sampleChanA) = some (sequenceIncrement 1) ∧
    findMap (send_packet sampleCtx samplePacket).2.commitments
      (samplePortA, sampleChanA, 1) =
      some (compute_packet_commitment [7, 8] (some (Height.mk 0 20)) (some 1000)) := by
  have h := C1_send_packet_sequencing sampleCtx samplePacket sampleChanEnd sampleConn []
    (ConnectionEnd.mk sampleClient) (ClientState.mk Status.Active (Height.mk 0 10))
    (ConsensusState.mk (some 500)) 1 (by decide) (by decide) (by decide) (by decide)
    (by decide) (by decide) (by decide) (by decide) (by decide) (by decide) (by decide)
  exact ⟨h.1.mpr (by decide), (h.2.1 (by decide)).1, (h.2.1 (by decide)).2⟩

/-- C9 counterexample: with the stored counter at `u64::MAX`,
`send_packet_execute` succeeds (no validation) but the new stored counter
is `u64::MAX` again — not incremented "by one" as the claim states — since
the spec's sequence increment saturates. -/
theorem C9_send_packet_execute_unconditional_counterexample :
    (send_packet_execute ctxMaxSeq packetMaxSeq).1 = none ∧
    findMap (send_packet_execute ctxMaxSeq packetMaxSeq).2.next_sequence_send
      (samplePortA, sampleChanA) = some u64Max ∧
    ¬ findMap (send_packet_execute ctxMaxSeq packetMaxSeq).2.next_sequence_send
      (samplePortA, sampleChanA) = some (u64Max + 1) := by
  decide

/-- C9 (amended): `send_packet_execute` performs no validation of its own:
given only that its three store lookups succeed — with no assumption that
the packet's sequence matches the stored counter, nor that the channel is
not `Closed` — it succeeds, sets the stored `next_sequence_send` to its
saturating increment (exactly one greater whenever the previous value is
below `u64::MAX`), and stores the packet commitment keyed by the packet's
**own** `seq_on_a`. -/
theorem C9_send_packet_execute_unconditional
    (ctx_a : Ctx) (packet : Packet) (ce : ChannelEnd) (cid : ConnectionId)
    (rest : List ConnectionId) (n : Sequence)
    (hch : findMap ctx_a.channels (packet.port_id_on_a, packet.chan_id_on_a) = some ce)
    (hhops : ce.connection_hops = cid :: rest)
    (hseq : findMap ctx_a.next_sequence_send
      (packet.port_id_on_a, packet.chan_id_on_a) = some n) :
    (send_packet_execute ctx_a packet).1 = none ∧
    findMap (send_packet_execute ctx_a packet).2.next_sequence_send
      (packet.port_id_on_a, packet.chan_id_on_a) = some (sequenceIncrement n) ∧
    findMap (send_packet_execute ctx_a packet).2.commitments
      (packet.port_id_on_a, packet.chan_id_on_a, packet.seq_on_a) =
      some (compute_packet_commitment packet.data packet.timeout_height_on_b
        packet.timeout_timestamp_on_b) ∧
    (n < u64Max → sequenceIncrement n = n + 1) := by
  rw [send_packet_execute_reduction ctx_a packet ce cid rest n hch hhops hseq]
  refine ⟨rfl, findMap_set_same _ _ _, findMap_set_same _ _ _, ?_⟩
  intro hlt
  simp [sequenceIncrement, Nat.min_eq_left (Nat.succ_le_of_lt hlt)]

/-- Fixture: the sample channel end, but `Closed`. -/
def sampleChanEndClosed : ChannelEnd := { sampleChanEnd with state := ChanState.Closed }

/-- Fixture: the sample context with its channel `Closed`. -/
def ctxClosed : Ctx :=
  { sampleCtx with channels := [((samplePortA, sampleChanA), sampleChanEndClosed)] }

/-- C9 witness: on a `Closed` channel with stored counter 1 and a packet
whose sequence is 5 (≠ 1), execution still succeeds, bumps the counter to
`sequenceIncrement 1 = 1 + 1`, and stores the commitment at sequence 5. -/
theorem C9_send_packet_execute_unconditional_witness :
    (send_packet_execute ctxClosed
      { samplePacket with seq_on_a := 5 }).1 = none ∧
    findMap (send_packet_execute ctxClosed
      { samplePacket with seq_on_a := 5 }).2.next_sequence_send
      (samplePortA, sampleChanA) = some (sequenceIncrement 1) ∧
    findMap (send_packet_execute ctxClosed
      { samplePacket with seq_on_a := 5 }).2.commitments
      (samplePortA, sampleChanA, 5) =
      some (compute_packet_commitment [7, 8] (some (Height.mk 0 20)) (some 1000)) ∧
    sequenceIncrement 1 = 1 + 1 := by
  have h := C9_send_packet_execute_unconditional ctxClosed
    { samplePacket with seq_on_a := 5 } sampleChanEndClosed sampleConn [] 1
    (by decide) (by decide) (by decide)
  exact ⟨h.1, h.2.1, h.2.2.1, h.2.2.2 (by decide)⟩

/-- Fixture: a well-formed raw channel in `TryOpen` (tag 2), `Unordered`
(tag 1), counterparty `(transfer2, channel-1)`, one hop, empty version. -/
def rawChanTryGood : RawChannel :=
  RawChannel.mk 2 1 (some (RawCounterparty.mk samplePortB.val sampleChanB.val))
    [sampleConn.val] []

/-- Fixture: a well-formed raw `MsgChannelOpenTry` with empty deprecated
`previous_channel_id`. -/
def rawTryGood : RawMsgChannelOpenTry :=
  RawMsgChannelOpenTry.mk samplePortA.val [] (some rawChanTryGood) ['v', '1']
    [1] (some (RawHeight.mk 0 10)) ['a', 'l', 'i', 'c', 'e']

/-- Fixture: a well-formed raw `MsgConnectionOpenConfirm`. -/
def rawConfirmGood : RawMsgConnectionOpenConfirm :=
  RawMsgConnectionOpenConfirm.mk sampleConn.val [1] (some (RawHeight.mk 0 10))
    ['a', 'l', 'i', 'c', 'e']

/-- Fixture: a well-formed raw packet. -/
def rawPacketGood : RawPacket :=
  RawPacket.mk 1 samplePortA.val sampleChanA.val samplePortB.val sampleChanB.val
    [7, 8] (some (RawHeight.mk 0 20)) 1000

/-- Fixture: a well-formed raw `MsgAcknowledgement`. -/
def rawAckGood : RawMsgAcknowledgement :=
  RawMsgAcknowledgement.mk (some rawPacketGood) [1] [2] (some (RawHeight.mk 0 10))
    ['a', 'l', 'i', 'c', 'e']

/-- C10: for `MsgConnectionOpenConfirm`, `MsgChannelOpenTry` and
`MsgAcknowledgement`, a present-but-invalid proof height (revision height
0, which the `Height` conversion rejects) makes the raw-to-domain
conversion behave exactly as if the field were absent — and on otherwise
well-formed messages that shared outcome is the
`MissingProofHeight` / `MissingHeight` error. -/
theorem C10_malformed_height_same_as_missing :
    (∀ (raw : RawMsgConnectionOpenConfirm) (rh : RawHeight),
      rh.revision_height = 0 →
      msgConnOpenConfirmFromRaw { raw with proof_height := some rh } =
        msgConnOpenConfirmFromRaw { raw with proof_height := none }) ∧
    (∀ (raw : RawMsgChannelOpenTry) (rh : RawHeight),
      rh.revision_height = 0 →
      msgChanOpenTryFromRaw { raw with proof_height := some rh } =
        msgChanOpenTryFromRaw { raw with proof_height := none }) ∧
    (∀ (raw : RawMsgAcknowledgement) (rh : RawHeight),
      rh.revision_height = 0 →
      msgAcknowledgementFromRaw { raw with proof_height := some rh } =
        msgAcknowledgementFromRaw { raw with proof_height := none }) ∧
    msgConnOpenConfirmFromRaw { rawConfirmGood with proof_height := some (RawHeight.mk 1 0) } =
      Except.error ConnectionError.MissingProofHeight ∧
    msgChanOpenTryFromRaw { rawTryGood with proof_height := some (RawHeight.mk 1 0) } =
      Except.error ChannelError.MissingHeight ∧
    msgAcknowledgementFromRaw { rawAckGood with proof_height := some (RawHeight.mk 1 0) } =
      Except.error PacketError.MissingHeight := by
  refine ⟨?_, ?_, ?_, by decide, by decide, by decide⟩
  · intro raw rh h
    obtain ⟨cid, pa, ph, sg⟩ := raw
    have hfr : heightFromRaw rh = none := by simp [heightFromRaw, h]
    simp [msgConnOpenConfirmFromRaw, hfr]
  · intro raw rh h
    obtain ⟨pid, prev, ch, cv, pi, ph, sg⟩ := raw
    have hfr : heightFromRaw rh = none := by simp [heightFromRaw, h]
    simp [msgChanOpenTryFromRaw, hfr]
  · intro raw rh h
    obtain ⟨pk, ak, pa, ph, sg⟩ := raw
    have hfr : heightFromRaw rh = none := by simp [heightFromRaw, h]
    simp [msgAcknowledgementFromRaw, hfr]

/-- C10 witness: the confirm message with present-but-invalid proof height
`(1, 0)` converts to the same result as with the field absent. -/
theorem C10_malformed_height_same_as_missing_witness :
    msgConnOpenConfirmFromRaw { rawConfirmGood with proof_height := some (RawHeight.mk 1 0) } =
      msgConnOpenConfirmFromRaw { rawConfirmGood with proof_height := none } :=
  C10_malformed_height_same_as_missing.1 rawConfirmGood (RawHeight.mk 1 0) (by decide)

/-- The state check succeeds exactly on an equal state. -/
theorem verifyStateMatches_ok_iff (e a : ChanState) :
    verifyStateMatches e a = Except.ok () ↔ a = e := by
  unfold verifyStateMatches
  by_cases h : a = e
  · simp [h]
  · simp [h]

/-- C8: a raw `MsgChannelOpenTry` converts successfully only if its
embedded channel decodes with state `TryOpen`, a present (non-empty)
counterparty channel id, and an empty deprecated `previous_channel_id`;
whenever the channel decodes to state `TryOpen` but `previous_channel_id`
is non-empty, the conversion fails with `InvalidChannelId` carrying it;
and the `counterparty_version` string is never inspected: replacing it by
any string turns a successful conversion into the successful conversion
with just that version field changed. -/
theorem C8_chan_open_try_requirements :
    (∀ (raw : RawMsgChannelOpenTry) (msg : MsgChannelOpenTry),
      msgChanOpenTryFromRaw raw = Except.ok msg →
      raw.previous_channel_id = [] ∧
      ∃ rawCh ce, raw.channel = some rawCh ∧
        channelEndFromRaw rawCh = Except.ok ce ∧
        ce.state = ChanState.TryOpen ∧ ce.remote.channel_id ≠ none) ∧
    (∀ (raw : RawMsgChannelOpenTry) (rawCh : RawChannel) (ce : ChannelEnd),
      raw.channel = some rawCh → channelEndFromRaw rawCh = Except.ok ce →
      ce.state = ChanState.TryOpen → raw.previous_channel_id ≠ [] →
      msgChanOpenTryFromRaw raw =
        Except.error (ChannelError.InvalidChannelId raw.previous_channel_id)) ∧
    (∀ (raw : RawMsgChannelOpenTry) (msg : MsgChannelOpenTry) (v : Str),
      msgChanOpenTryFromRaw raw = Except.ok msg →
      msgChanOpenTryFromRaw { raw with counterparty_version := v } =
        Except.ok { msg with version_supported_on_a := Version.mk v }) := by
  refine ⟨?_, ?_, ?_⟩
  · intro raw msg h
    unfold msgChanOpenTryFromRaw at h
    split at h
    next heq1 => simp at h
    next rawCh heq1 =>
      split at h
      next e heq2 => simp at h
      next ce heq2 =>
        split at h
        next e heq3 => simp at h
        next u heq3 =>
          split at h
          next hprev => simp at h
          next hprev =>
            split at h
            next e heq4 => simp at h
            next p heq4 =>
              split at h
              next heq5 => simp at h
              next chanA heq5 =>
                split at h
                next heq6 => simp at h
                next proof heq6 =>
                  split at h
                  next heq7 => simp at h
                  next hh heq7 =>
                    cases u
                    refine ⟨by simpa using hprev, rawCh, ce, heq1, heq2,
                      (verifyStateMatches_ok_iff _ _).mp heq3, by simp [heq5]⟩
  · intro raw rawCh ce hch hce hstate hprev
    simp [msgChanOpenTryFromRaw, hch, hce, verifyStateMatches, hstate, hprev]
  · intro raw msg v h
    unfold msgChanOpenTryFromRaw at h
    split at h
    next heq1 => simp at h
    next rawCh heq1 =>
      split at h
      next e heq2 => simp at h
      next ce heq2 =>
        split at h
        next e heq3 => simp at h
        next u heq3 =>
          split at h
          next hprev => simp at h
          next hprev =>
            split at h
            next e heq4 => simp at h
            next p heq4 =>
              split at h
              next heq5 => simp at h
              next chanA heq5 =>
                split at h
                next heq6 => simp at h
                next proof heq6 =>
                  split at h
                  next heq7 => simp at h
                  next hh heq7 =>
                    cases u
                    injection h with h2
                    subst h2
                    rw [not_not] at hprev
                    simp [msgChanOpenTryFromRaw, heq1, heq2, heq3, hprev, heq4,
                      heq5, heq6, heq7]

/-- Fixture: the domain channel end decoded from `rawChanTryGood`. -/
def sampleChanEndTry : ChannelEnd :=
  ChannelEnd.mk ChanState.TryOpen Order.Unordered
    (Counterparty.mk samplePortB (some sampleChanB)) [sampleConn] (Version.mk [])

/-- C8 witness: a raw try message that is well-formed except for a
non-empty deprecated `previous_channel_id` (`x`) is rejected with
`InvalidChannelId x`. -/
theorem C8_chan_open_try_requirements_witness :
    msgChanOpenTryFromRaw { rawTryGood with previous_channel_id := ['x'] } =
      Except.error (ChannelError.InvalidChannelId ['x']) :=
  C8_chan_open_try_requirements.2.1 { rawTryGood with previous_channel_id := ['x'] }
    rawChanTryGood sampleChanEndTry (by decide) (by decide) (by decide) (by decide)

/-- A successful port-id parse returns the input string wrapped. -/
theorem parsePortId_ok (s : Str) (p : PortId) (h : parsePortId s = Except.ok p) :
    p.val = s := by
  cases hv : validate_port_identifier s with
  | error e =>
    rw [parsePortId, hv] at h
    simp [Except.map] at h
  | ok u =>
    rw [parsePortId, hv] at h
    simp [Except.map] at h
    rw [← h]

/-- A successful channel-id parse returns the input string wrapped. -/
theorem parseChannelId_ok (s : Str) (c : ChannelId)
    (h : parseChannelId s = Except.ok c) : c.val = s := by
  cases hv : validate_channel_identifier s with
  | error e =>
    rw [parseChannelId, hv] at h
    simp [Except.map] at h
  | ok u =>
    rw [parseChannelId, hv] at h
    simp [Except.map] at h
    rw [← h]

/-- A successful connection-id parse returns the input string wrapped. -/
theorem parseConnectionId_ok (s : Str) (c : ConnectionId)
    (h : parseConnectionId s = Except.ok c) : c.val = s := by
  cases hv : validate_connection_identifier s with
  | error e =>
    rw [parseConnectionId, hv] at h
    simp [Except.map] at h
  | ok u =>
    rw [parseConnectionId, hv] at h
    simp [Except.map] at h
    rw [← h]

/-- A valid string parses to its wrapper (port). -/
theorem parsePortId_of_valid (s : Str)
    (h : validate_port_identifier s = Except.ok ()) :
    parsePortId s = Except.ok (PortId.mk s) := by
  rw [parsePortId, h]
  rfl

/-- A valid string parses to its wrapper (channel). -/
theorem parseChannelId_of_valid (s : Str)
    (h : validate_channel_identifier s = Except.ok ()) :
    parseChannelId s = Except.ok (ChannelId.mk s) := by
  rw [parseChannelId, h]
  rfl

/-- A valid string parses to its wrapper (connection). -/
theorem parseConnectionId_of_valid (s : Str)
    (h : validate_connection_identifier s = Except.ok ()) :
    parseConnectionId s = Except.ok (ConnectionId.mk s) := by
  rw [parseConnectionId, h]
  rfl

/-- A valid channel-id string is non-empty (its window starts at 8). -/
theorem valid_channel_id_ne_nil (s : Str)
    (h : validate_channel_identifier s = Except.ok ()) : s ≠ [] := by
  intro hs
  rw [hs] at h
  exact absurd h (by decide)

/-- Decoding a raw counterparty and re-encoding it gives back the raw
input. -/
theorem counterpartyFromRaw_inv (rc : RawCounterparty) (c : Counterparty)
    (h : counterpartyFromRaw rc = Except.ok c) : counterpartyToRaw c = rc := by
  obtain ⟨rp, rch⟩ := rc
  unfold counterpartyFromRaw at h
  split at h
  next e heq => simp at h
  next p heq =>
    split at h
    next hemp =>
      injection h with h2
      subst h2
      simp only [counterpartyToRaw, parsePortId_ok _ _ heq]
      simp at hemp
      rw [hemp]
    next hemp =>
      split at h
      next e heq2 => simp at h
      next ch heq2 =>
        injection h with h2
        subst h2
        simp only [counterpartyToRaw, parsePortId_ok _ _ heq,
          parseChannelId_ok _ _ heq2]

/-- Encoding a well-formed counterparty and decoding it gives it back. -/
theorem counterpartyToRaw_inv (c : Counterparty)
    (hp : validate_port_identifier c.port_id.val = Except.ok ())
    (hc : ∀ ch, c.channel_id = some ch →
      validate_channel_identifier ch.val = Except.ok ()) :
    counterpartyFromRaw (counterpartyToRaw c) = Except.ok c := by
  obtain ⟨⟨pv⟩, cid⟩ := c
  cases cid with
  | none =>
    simp only [counterpartyToRaw, counterpartyFromRaw,
      parsePortId_of_valid pv hp]
    rfl
  | some ch =>
    obtain ⟨chv⟩ := ch
    have h1 := hc (ChannelId.mk chv) rfl
    have h2 : chv ≠ [] := valid_channel_id_ne_nil chv h1
    simp only [counterpartyToRaw, counterpartyFromRaw,
      parsePortId_of_valid pv hp, parseChannelId_of_valid chv h1, if_neg h2]

/-- Decoding a hop list and re-encoding it gives back the raw strings. -/
theorem parseHops_inv (ss : List Str) (cs : List ConnectionId)
    (h : parseHops ss = Except.ok cs) : cs.map ConnectionId.val = ss := by
  induction ss generalizing cs with
  | nil =>
    unfold parseHops at h
    injection h with h2
    subst h2
    rfl
  | cons s rest ih =>
    unfold parseHops at h
    split at h
    next e heq => simp at h
    next c heq =>
      split at h
      next e heq2 => simp at h
      next cs2 heq2 =>
        injection h with h2
        subst h2
        simp only [List.map_cons, parseConnectionId_ok _ _ heq, ih cs2 heq2]

/-- Encoding a list of valid connection ids and decoding gives it back. -/
theorem parseHops_of_valid (cs : List ConnectionId)
    (h : ∀ c ∈ cs, validate_connection_identifier c.val = Except.ok ()) :
    parseHops (cs.map ConnectionId.val) = Except.ok cs := by
  induction cs with
  | nil => rfl
  | cons c rest ih =>
    obtain ⟨cv⟩ := c
    have h1 := h (ConnectionId.mk cv) (by simp)
    simp only [List.map_cons, parseHops, parseConnectionId_of_valid cv h1,
      ih fun x hx => h x (by simp [hx])]

/-- A successfully decoded state tag re-encodes to itself. -/
theorem chanStateFromI32_inv (n : Nat) (st : ChanState)
    (h : chanStateFromI32 n = Except.ok st) : chanStateToI32 st = n := by
  unfold chanStateFromI32 at h
  split at h <;> first
    | (injection h with h2; subst h2; rfl)
    | simp at h

/-- Encoding then decoding a channel state is the identity. -/
theorem chanStateToI32_inv (st : ChanState) :
    chanStateFromI32 (chanStateToI32 st) = Except.ok st := by
  cases st <;> rfl

/-- A successfully decoded ordering tag re-encodes to itself. -/
theorem orderFromI32_inv (n : Nat) (o : Order)
    (h : orderFromI32 n = Except.ok o) : orderToI32 o = n := by
  unfold orderFromI32 at h
  split at h <;> first
    | (injection h with h2; subst h2; rfl)
    | simp at h

/-- Encoding then decoding an ordering is the identity. -/
theorem orderToI32_inv (o : Order) :
    orderFromI32 (orderToI32 o) = Except.ok o := by
  cases o <;> rfl

/-- A successfully decoded raw height re-encodes to itself. -/
theorem heightFromRaw_inv (rh : RawHeight) (h : Height)
    (hh : heightFromRaw rh = some h) : heightToRaw h = rh := by
  obtain ⟨rn, rv⟩ := rh
  unfold heightFromRaw at hh
  by_cases hz : rv = 0
  · simp [hz] at hh
  · simp only [hz, if_false] at hh
    injection hh with h2
    subst h2
    rfl

/-- Encoding a valid height and decoding gives it back. -/
theorem heightToRaw_inv (h : Height) (hnz : h.revision_height ≠ 0) :
    heightFromRaw (heightToRaw h) = some h := by
  obtain ⟨rn, rv⟩ := h
  simp only [heightToRaw, heightFromRaw]
  simp at hnz
  simp [hnz]

/-- Decoding a raw timeout height that is not the literal zero height and
re-encoding it gives back the raw field. -/
theorem timeoutHeightFromRaw_inv (o : Option RawHeight) (th : TimeoutHeight)
    (h : timeoutHeightFromRaw o = Except.ok th)
    (hz : o ≠ some (RawHeight.mk 0 0)) : timeoutHeightToRaw th = o := by
  cases o with
  | none =>
    injection h with h2
    subst h2
    rfl
  | some rh =>
    obtain ⟨rn, rv⟩ := rh
    simp only [timeoutHeightFromRaw] at h
    by_cases hc : rn = 0 ∧ rv = 0
    · exfalso
      exact hz (by simp [hc.1, hc.2])
    · rw [if_neg (by simpa using hc)] at h
      split at h
      next heq => simp at h
      next hh heq =>
        injection h with h2
        subst h2
        simp [timeoutHeightToRaw, heightFromRaw_inv _ _ heq]

/-- Encoding a well-formed timeout height and decoding gives it back. -/
theorem timeoutHeightToRaw_inv (th : TimeoutHeight)
    (hwf : ∀ hh, th = some hh → hh.revision_height ≠ 0) :
    timeoutHeightFromRaw (timeoutHeightToRaw th) = Except.ok th := by
  cases th with
  | none => rfl
  | some hh =>
    have hnz := hwf hh rfl
    obtain ⟨rn, rv⟩ := hh
    simp at hnz
    simp [timeoutHeightToRaw, heightToRaw, timeoutHeightFromRaw, heightFromRaw, hnz]

/-- Encoding a timestamp (with 0 as the unset sentinel) then decoding is
the identity on well-formed timestamps (never the literal `some 0`). -/
theorem timestampToNanos_inv (t : Timestamp) (hz : t ≠ some 0) :
    timestampFromNanos (timestampToNanos t) = t := by
  cases t with
  | none => rfl
  | some n =>
    have hn : n ≠ 0 := fun hh => hz (by rw [hh])
    simp [timestampToNanos, timestampFromNanos, hn]

/-- Decoding a raw nanosecond count then re-encoding is the identity. -/
theorem timestampFromNanos_inv (n : Nat) :
    timestampToNanos (timestampFromNanos n) = n := by
  by_cases h : n = 0
  · simp [timestampFromNanos, timestampToNanos, h]
  · simp [timestampFromNanos, timestampToNanos, h]

/-- Decoding a raw channel and re-encoding it gives back the raw input. -/
theorem channelEndFromRaw_inv (rc : RawChannel) (ce : ChannelEnd)
    (h : channelEndFromRaw rc = Except.ok ce) : channelEndToRaw ce = rc := by
  obtain ⟨st, ord, cp, hops, ver⟩ := rc
  unfold channelEndFromRaw at h
  split at h
  next e heq1 => simp at h
  next s heq1 =>
    split at h
    next e heq2 => simp at h
    next o heq2 =>
      split at h
      next heq3 => simp at h
      next rcx heq3 =>
        split at h
        next e heq4 => simp at h
        next cpty heq4 =>
          split at h
          next e heq5 => simp at h
          next hps heq5 =>
            injection h with h2
            subst h2
            dsimp only at heq1 heq2 heq3 heq5
            subst heq3
            simp only [channelEndToRaw, chanStateFromI32_inv _ _ heq1,
              orderFromI32_inv _ _ heq2, counterpartyFromRaw_inv _ _ heq4,
              parseHops_inv _ _ heq5]

/-- Encoding a well-formed channel end and decoding gives it back. -/
theorem channelEndToRaw_inv (ce : ChannelEnd)
    (hp : validate_port_identifier ce.remote.port_id.val = Except.ok ())
    (hc : ∀ ch, ce.remote.channel_id = some ch →
      validate_channel_identifier ch.val = Except.ok ())
    (hh : ∀ c ∈ ce.connection_hops, validate_connection_identifier c.val = Except.ok ()) :
    channelEndFromRaw (channelEndToRaw ce) = Except.ok ce := by
  obtain ⟨st, ord, cp, hops, ver⟩ := ce
  obtain ⟨vv⟩ := ver
  simp only [channelEndToRaw, channelEndFromRaw, chanStateToI32_inv st,
    orderToI32_inv ord, counterpartyToRaw_inv cp hp hc, parseHops_of_valid hops hh]

/-- Well-formedness of a port id: its string passes the port validator. -/
abbrev portIdWf (p : PortId) : Prop := validate_port_identifier p.val = Except.ok ()

/-- Well-formedness of a channel id. -/
abbrev channelIdWf (c : ChannelId) : Prop :=
  validate_channel_identifier c.val = Except.ok ()

/-- Well-formedness of a connection id. -/
abbrev connectionIdWf (c : ConnectionId) : Prop :=
  validate_connection_identifier c.val = Except.ok ()

/-- Well-formedness of an optional counterparty channel id. -/
def optionChannelIdWf : Option ChannelId → Prop
  | none => True
  | some ch => channelIdWf ch

instance (o : Option ChannelId) : Decidable (optionChannelIdWf o) := by
  cases o with
  | none => exact isTrue trivial
  | some ch => exact inferInstanceAs (Decidable (channelIdWf ch))

/-- Validity of an optional timeout height: a set height has a non-zero
revision height. -/
def optionHeightValid : TimeoutHeight → Prop
  | none => True
  | some hh => hh.revision_height ≠ 0

instance (th : TimeoutHeight) : Decidable (optionHeightValid th) := by
  cases th with
  | none => exact isTrue trivial
  | some hh => exact inferInstanceAs (Decidable (hh.revision_height ≠ 0))

/-- Bridge: the option-level wellformedness gives the pointwise form. -/
theorem optionChannelIdWf_forall (o : Option ChannelId)
    (h : optionChannelIdWf o) :
    ∀ ch, o = some ch → validate_channel_identifier ch.val = Except.ok () := by
  cases o with
  | none => intro ch hh; cases hh
  | some c =>
    intro ch hh
    injection hh with h2
    subst h2
    exact h

/-- Bridge: the option-level height validity gives the pointwise form. -/
theorem optionHeightValid_forall (th : TimeoutHeight)
    (h : optionHeightValid th) :
    ∀ hh, th = some hh → hh.revision_height ≠ 0 := by
  cases th with
  | none => intro hh h2; cases h2
  | some x =>
    intro hh h2
    injection h2 with h3
    subst h3
    exact h

/-- A successfully wrapped proof keeps its bytes. -/
theorem proofFromBytes_inv (bs : List Nat) (pr : CommitmentProofBytes)
    (h : proofFromBytes bs = some pr) : pr.val = bs := by
  unfold proofFromBytes at h
  by_cases hb : bs = []
  · simp [hb] at h
  · rw [if_neg hb] at h
    injection h with h2
    rw [← h2]

/-- Non-empty bytes wrap successfully. -/
theorem proofFromBytes_of_ne (bs : List Nat) (h : bs ≠ []) :
    proofFromBytes bs = some (CommitmentProofBytes.mk bs) := by
  simp [proofFromBytes, h]

/-- A successfully wrapped acknowledgement keeps its bytes. -/
theorem ackFromBytes_inv (bs : List Nat) (a : Acknowledgement)
    (h : ackFromBytes bs = some a) : a.val = bs := by
  unfold ackFromBytes at h
  by_cases hb : bs = []
  · simp [hb] at h
  · rw [if_neg hb] at h
    injection h with h2
    rw [← h2]

/-- Non-empty bytes wrap successfully as an acknowledgement. -/
theorem ackFromBytes_of_ne (bs : List Nat) (h : bs ≠ []) :
    ackFromBytes bs = some (Acknowledgement.mk bs) := by
  simp [ackFromBytes, h]

/-- A successful optional-height decode pins the raw field. -/
theorem bind_heightFromRaw_inv (o : Option RawHeight) (h : Height)
    (hb : o.bind heightFromRaw = some h) : o = some (heightToRaw h) := by
  cases o with
  | none => simp at hb
  | some rh =>
    simp only [Option.some_bind] at hb
    rw [heightFromRaw_inv rh h hb]

/-- The empty-channel-id check succeeds exactly when the id is absent. -/
theorem verifyEmptyChannelId_ok_iff (c : Counterparty) :
    verifyEmptyChannelId c = Except.ok () ↔ c.channel_id = none := by
  obtain ⟨p, cid⟩ := c
  cases cid with
  | none => simp [verifyEmptyChannelId]
  | some ch => simp [verifyEmptyChannelId]

/-- Well-formedness of a domain packet: valid identifiers, a valid set
timeout height (if any), and a timestamp that is not the literal wrapped
zero. -/
abbrev packetWf (p : Packet) : Prop :=
  portIdWf p.port_id_on_a ∧ channelIdWf p.chan_id_on_a ∧
  portIdWf p.port_id_on_b ∧ channelIdWf p.chan_id_on_b ∧
  optionHeightValid p.timeout_height_on_b ∧
  p.timeout_timestamp_on_b ≠ some 0

/-- Decoding a raw packet whose timeout-height field is not the literal
zero height, then re-encoding, gives back the raw packet. -/
theorem packetFromRaw_inv (rp : RawPacket) (p : Packet)
    (h : packetFromRaw rp = Except.ok p)
    (hz : rp.timeout_height ≠ some (RawHeight.mk 0 0)) : packetToRaw p = rp := by
  obtain ⟨sq, sp, sc, dp, dc, data, th, ts⟩ := rp
  unfold packetFromRaw at h
  split at h
  next e heq1 => simp at h
  next pa heq1 =>
    split at h
    next e heq2 => simp at h
    next ca heq2 =>
      split at h
      next e heq3 => simp at h
      next pb heq3 =>
        split at h
        next e heq4 => simp at h
        next cb heq4 =>
          split at h
          next e heq5 => simp at h
          next tho heq5 =>
            injection h with h2
            subst h2
            dsimp only at heq1 heq2 heq3 heq4 heq5 hz
            simp only [packetToRaw, parsePortId_ok _ _ heq1,
              parseChannelId_ok _ _ heq2, parsePortId_ok _ _ heq3,
              parseChannelId_ok _ _ heq4,
              timeoutHeightFromRaw_inv _ _ heq5 hz, timestampFromNanos_inv]

/-- Encoding a well-formed domain packet and decoding gives it back. -/
theorem packetToRaw_inv (p : Packet) (hwf : packetWf p) :
    packetFromRaw (packetToRaw p) = Except.ok p := by
  obtain ⟨hpa, hca, hpb, hcb, hth, hts⟩ := hwf
  obtain ⟨sq, ⟨pav⟩, ⟨cav⟩, ⟨pbv⟩, ⟨cbv⟩, data, th, ts⟩ := p
  simp only [packetToRaw, packetFromRaw, parsePortId_of_valid _ hpa,
    parseChannelId_of_valid _ hca, parsePortId_of_valid _ hpb,
    parseChannelId_of_valid _ hcb,
    timeoutHeightToRaw_inv th (optionHeightValid_forall th hth),
    timestampToNanos_inv ts hts]

/-- Decoding a raw `MsgConnectionOpenConfirm` and re-encoding gives back
the raw message. -/
theorem msgConnOpenConfirmFromRaw_inv (raw : RawMsgConnectionOpenConfirm)
    (msg : MsgConnectionOpenConfirm)
    (h : msgConnOpenConfirmFromRaw raw = Except.ok msg) :
    msgConnOpenConfirmToRaw msg = raw := by
  obtain ⟨cid, pa, ph, sg⟩ := raw
  unfold msgConnOpenConfirmFromRaw at h
  split at h
  next e heq1 => simp at h
  next c heq1 =>
    split at h
    next heq2 => simp at h
    next proof heq2 =>
      split at h
      next heq3 => simp at h
      next hh heq3 =>
        injection h with h2
        subst h2
        dsimp only at heq1 heq2 heq3
        rw [bind_heightFromRaw_inv _ _ heq3]
        simp only [msgConnOpenConfirmToRaw, parseConnectionId_ok _ _ heq1,
          proofFromBytes_inv _ _ heq2]

/-- Well-formedness of a domain `MsgConnectionOpenConfirm`. -/
abbrev msgConnOpenConfirmWf (m : MsgConnectionOpenConfirm) : Prop :=
  connectionIdWf m.conn_id_on_b ∧ m.proof_conn_end_on_a.val ≠ [] ∧
  m.proof_height_on_a.revision_height ≠ 0

/-- Encoding a well-formed domain `MsgConnectionOpenConfirm` and decoding
gives it back. -/
theorem msgConnOpenConfirmToRaw_inv (msg : MsgConnectionOpenConfirm)
    (hwf : msgConnOpenConfirmWf msg) :
    msgConnOpenConfirmFromRaw (msgConnOpenConfirmToRaw msg) = Except.ok msg := by
  obtain ⟨h1, h2, h3⟩ := hwf
  obtain ⟨⟨cv⟩, ⟨pv⟩, hh, ⟨sv⟩⟩ := msg
  simp only [msgConnOpenConfirmToRaw, msgConnOpenConfirmFromRaw,
    parseConnectionId_of_valid _ h1, proofFromBytes_of_ne _ h2,
    Option.some_bind, heightToRaw_inv hh h3]

/-- Decoding a raw `MsgChannelOpenInit` and re-encoding gives back the raw
message. -/
theorem msgChanOpenInitFromRaw_inv (raw : RawMsgChannelOpenInit)
    (msg : MsgChannelOpenInit)
    (h : msgChanOpenInitFromRaw raw = Except.ok msg) :
    msgChanOpenInitToRaw msg = raw := by
  obtain ⟨pid, ch, sg⟩ := raw
  unfold msgChanOpenInitFromRaw at h
  split at h
  next heq1 => simp at h
  next rawCh heq1 =>
    split at h
    next e heq2 => simp at h
    next ce heq2 =>
      split at h
      next e heq3 => simp at h
      next u heq3 =>
        split at h
        next e heq4 => simp at h
        next u2 heq4 =>
          split at h
          next e heq5 => simp at h
          next p heq5 =>
            injection h with h2
            subst h2
            cases u
            cases u2
            dsimp only at heq1 heq2 heq3 heq4 heq5
            obtain ⟨st, ord, ⟨rpid, rcid⟩, hops, ver⟩ := ce
            have hst := (verifyStateMatches_ok_iff _ _).mp heq3
            have hemp := (verifyEmptyChannelId_ok_iff _).mp heq4
            dsimp only at hst hemp
            subst hst
            subst hemp
            simp only [msgChanOpenInitToRaw, parsePortId_ok _ _ heq5,
              channelEndFromRaw_inv _ _ heq2, heq1]

/-- Well-formedness of a domain `MsgChannelOpenInit`. -/
abbrev msgChanOpenInitWf (m : MsgChannelOpenInit) : Prop :=
  portIdWf m.port_id_on_a ∧ portIdWf m.port_id_on_b ∧
  ∀ c ∈ m.connection_hops_on_a, connectionIdWf c

/-- Encoding a well-formed domain `MsgChannelOpenInit` and decoding gives
it back. -/
theorem msgChanOpenInitToRaw_inv (msg : MsgChannelOpenInit)
    (hwf : msgChanOpenInitWf msg) :
    msgChanOpenInitFromRaw (msgChanOpenInitToRaw msg) = Except.ok msg := by
  obtain ⟨h1, h2, h3⟩ := hwf
  obtain ⟨⟨pav⟩, hops, pb, ord, ⟨sgv⟩, ver⟩ := msg
  have hce := channelEndToRaw_inv
    (ChannelEnd.mk ChanState.Init ord (Counterparty.mk pb none) hops ver)
    h2 (fun ch hch => by cases hch) h3
  simp [msgChanOpenInitToRaw, msgChanOpenInitFromRaw, hce,
    verifyStateMatches, verifyEmptyChannelId, parsePortId_of_valid _ h1]

/-- The raw channel's version string is carried verbatim into the decoded
channel end. -/
theorem channelEndFromRaw_version (rc : RawChannel) (ce : ChannelEnd)
    (h : channelEndFromRaw rc = Except.ok ce) : ce.version = Version.mk rc.version := by
  unfold channelEndFromRaw at h
  split at h
  next e heq1 => simp at h
  next s heq1 =>
    split at h
    next e heq2 => simp at h
    next o heq2 =>
      split at h
      next heq3 => simp at h
      next rcx heq3 =>
        split at h
        next e heq4 => simp at h
        next cpty heq4 =>
          split at h
          next e heq5 => simp at h
          next hps heq5 =>
            injection h with h2
            subst h2
            rfl

/-- Decoding a raw `MsgChannelOpenTry` whose embedded channel version is
empty, then re-encoding, gives back the raw message. -/
theorem msgChanOpenTryFromRaw_inv (raw : RawMsgChannelOpenTry)
    (msg : MsgChannelOpenTry)
    (h : msgChanOpenTryFromRaw raw = Except.ok msg)
    (hver : ∀ rawCh, raw.channel = some rawCh → rawCh.version = []) :
    msgChanOpenTryToRaw msg = raw := by
  obtain ⟨pid, prev, ch, cv, pi, ph, sg⟩ := raw
  unfold msgChanOpenTryFromRaw at h
  split at h
  next heq1 => simp at h
  next rawCh heq1 =>
    split at h
    next e heq2 => simp at h
    next ce heq2 =>
      split at h
      next e heq3 => simp at h
      next u heq3 =>
        split at h
        next hprev => simp at h
        next hprev =>
          split at h
          next e heq4 => simp at h
          next p heq4 =>
            split at h
            next heq5 => simp at h
            next chanA heq5 =>
              split at h
              next heq6 => simp at h
              next proof heq6 =>
                split at h
                next heq7 => simp at h
                next hh heq7 =>
                  injection h with h2
                  subst h2
                  cases u
                  dsimp only at heq1 heq2 heq3 heq4 heq5 heq6 heq7 hprev
                  rw [not_not] at hprev
                  have hv := hver rawCh heq1
                  have hst := (verifyStateMatches_ok_iff _ _).mp heq3
                  obtain ⟨st, ord, ⟨rpid, rcid⟩, hops, ver⟩ := ce
                  dsimp only at hst heq5
                  subst hst
                  subst heq5
                  obtain ⟨vv⟩ := ver
                  have hver2 := channelEndFromRaw_version _ _ heq2
                  dsimp only at hver2
                  injection hver2 with h8
                  have hvl : vv = [] := by rw [h8, hv]
                  subst hvl
                  have hinv := channelEndFromRaw_inv _ _ heq2
                  rw [bind_heightFromRaw_inv _ _ heq7, heq1, hprev, ← hinv]
                  simp only [msgChanOpenTryToRaw, parsePortId_ok _ _ heq4,
                    proofFromBytes_inv _ _ heq6, Version.empty]

/-- Well-formedness of a domain `MsgChannelOpenTry`. -/
abbrev msgChanOpenTryWf (m : MsgChannelOpenTry) : Prop :=
  portIdWf m.port_id_on_b ∧ portIdWf m.port_id_on_a ∧
  channelIdWf m.chan_id_on_a ∧
  (∀ c ∈ m.connection_hops_on_b, connectionIdWf c) ∧
  m.proof_chan_end_on_a.val ≠ [] ∧ m.proof_height_on_a.revision_height ≠ 0

/-- Encoding a well-formed domain `MsgChannelOpenTry` whose deprecated
`version_proposal` is empty, then decoding, gives it back. -/
theorem msgChanOpenTryToRaw_inv (msg : MsgChannelOpenTry)
    (hwf : msgChanOpenTryWf msg) (hvp : msg.version_proposal = Version.empty) :
    msgChanOpenTryFromRaw (msgChanOpenTryToRaw msg) = Except.ok msg := by
  obtain ⟨h1, h2, h3, h4, h5, h6⟩ := hwf
  obtain ⟨⟨pbv⟩, hops, pa, ca, ⟨vsv⟩, ⟨prv⟩, hh, ord, ⟨sgv⟩, vp⟩ := msg
  dsimp only at h1 h2 h3 h4 h5 h6 hvp
  subst hvp
  have hce := channelEndToRaw_inv
    (ChannelEnd.mk ChanState.TryOpen ord (Counterparty.mk pa (some ca)) hops
      Version.empty)
    h2 (fun ch hch => by injection hch with h7; rw [← h7]; exact h3) h4
  simp [msgChanOpenTryToRaw, msgChanOpenTryFromRaw, hce, verifyStateMatches,
    parsePortId_of_valid _ h1, proofFromBytes_of_ne _ h5, Option.some_bind,
    heightToRaw_inv hh h6]

/-- Decoding a raw `MsgAcknowledgement` whose packet timeout-height field
is not the literal zero height, then re-encoding, gives back the raw
message. -/
theorem msgAcknowledgementFromRaw_inv (raw : RawMsgAcknowledgement)
    (msg : MsgAcknowledgement)
    (h : msgAcknowledgementFromRaw raw = Except.ok msg)
    (hz : ∀ rp, raw.packet = some rp →
      rp.timeout_height ≠ some (RawHeight.mk 0 0)) :
    msgAcknowledgementToRaw msg = raw := by
  obtain ⟨pk, ak, pa, ph, sg⟩ := raw
  unfold msgAcknowledgementFromRaw at h
  split at h
  next heq1 => simp at h
  next rp heq1 =>
    split at h
    next e heq2 => simp at h
    next p heq2 =>
      split at h
      next heq3 => simp at h
      next ack heq3 =>
        split at h
        next heq4 => simp at h
        next proof heq4 =>
          split at h
          next heq5 => simp at h
          next hh heq5 =>
            injection h with h2
            subst h2
            dsimp only at heq1 heq2 heq3 heq4 heq5
            rw [bind_heightFromRaw_inv _ _ heq5, heq1]
            simp only [msgAcknowledgementToRaw,
              packetFromRaw_inv _ _ heq2 (hz rp heq1),
              ackFromBytes_inv _ _ heq3, proofFromBytes_inv _ _ heq4]

/-- Well-formedness of a domain `MsgAcknowledgement`. -/
abbrev msgAcknowledgementWf (m : MsgAcknowledgement) : Prop :=
  packetWf m.packet ∧ m.acknowledgement.val ≠ [] ∧
  m.proof_acked_on_b.val ≠ [] ∧ m.proof_height_on_b.revision_height ≠ 0

/-- Encoding a well-formed domain `MsgAcknowledgement` and decoding gives
it back. -/
theorem msgAcknowledgementToRaw_inv (msg : MsgAcknowledgement)
    (hwf : msgAcknowledgementWf msg) :
    msgAcknowledgementFromRaw (msgAcknowledgementToRaw msg) = Except.ok msg := by
  obtain ⟨h1, h2, h3, h4⟩ := hwf
  obtain ⟨p, ⟨akv⟩, ⟨prv⟩, hh, ⟨sgv⟩⟩ := msg
  dsimp only at h1 h2 h3 h4
  simp [msgAcknowledgementToRaw, msgAcknowledgementFromRaw,
    packetToRaw_inv p h1, ackFromBytes_of_ne _ h2, proofFromBytes_of_ne _ h3,
    Option.some_bind, heightToRaw_inv hh h4]

/-- C3 (amended): for the embedded message types the round-trip laws hold,
except that `MsgChannelOpenTry`'s domain-to-raw conversion erases the
embedded channel version (both directions therefore require that version /
the deprecated `version_proposal` to be empty), and a raw packet timeout
height equal to the literal zero height is normalized to the absent
sentinel (so the `MsgAcknowledgement` raw-side law requires the field not
be the literal zero height); domain-side laws hold for well-formed domain
messages. -/
theorem C3_message_roundtrips :
    (∀ (raw : RawMsgChannelOpenInit) (msg : MsgChannelOpenInit),
      msgChanOpenInitFromRaw raw = Except.ok msg →
      msgChanOpenInitToRaw msg = raw) ∧
    (∀ msg : MsgChannelOpenInit, msgChanOpenInitWf msg →
      msgChanOpenInitFromRaw (msgChanOpenInitToRaw msg) = Except.ok msg) ∧
    (∀ (raw : RawMsgChannelOpenTry) (msg : MsgChannelOpenTry),
      msgChanOpenTryFromRaw raw = Except.ok msg →
      (∀ rawCh, raw.channel = some rawCh → rawCh.version = []) →
      msgChanOpenTryToRaw msg = raw) ∧
    (∀ msg : MsgChannelOpenTry, msgChanOpenTryWf msg →
      msg.version_proposal = Version.empty →
      msgChanOpenTryFromRaw (msgChanOpenTryToRaw msg) = Except.ok msg) ∧
    (∀ (raw : RawMsgAcknowledgement) (msg : MsgAcknowledgement),
      msgAcknowledgementFromRaw raw = Except.ok msg →
      (∀ rp, raw.packet = some rp →
        rp.timeout_height ≠ some (RawHeight.mk 0 0)) →
      msgAcknowledgementToRaw msg = raw) ∧
    (∀ msg : MsgAcknowledgement, msgAcknowledgementWf msg →
      msgAcknowledgementFromRaw (msgAcknowledgementToRaw msg) = Except.ok msg) ∧
    (∀ (raw : RawMsgConnectionOpenConfirm) (msg : MsgConnectionOpenConfirm),
      msgConnOpenConfirmFromRaw raw = Except.ok msg →
      msgConnOpenConfirmToRaw msg = raw) ∧
    (∀ msg : MsgConnectionOpenConfirm, msgConnOpenConfirmWf msg →
      msgConnOpenConfirmFromRaw (msgConnOpenConfirmToRaw msg) = Except.ok msg) :=
  ⟨msgChanOpenInitFromRaw_inv, msgChanOpenInitToRaw_inv,
   msgChanOpenTryFromRaw_inv, msgChanOpenTryToRaw_inv,
   msgAcknowledgementFromRaw_inv, msgAcknowledgementToRaw_inv,
   msgConnOpenConfirmFromRaw_inv, msgConnOpenConfirmToRaw_inv⟩

/-- Fixture: the good raw try channel but with a non-empty version. -/
def rawChanTryV : RawChannel := { rawChanTryGood with version := ['v'] }

/-- Fixture: the good raw try message but with the non-empty channel
version. -/
def rawTryV : RawMsgChannelOpenTry := { rawTryGood with channel := some rawChanTryV }

/-- Fixture: the good raw packet but with the literal zero timeout
height. -/
def rawPacketZeroTH : RawPacket :=
  { rawPacketGood with timeout_height := some (RawHeight.mk 0 0) }

/-- Fixture: the good raw acknowledgement but with the zero-timeout-height
packet. -/
def rawAckZeroTH : RawMsgAcknowledgement :=
  { rawAckGood with packet := some rawPacketZeroTH }

/-- C3 counterexample: two well-formed raw messages (their raw-to-domain
conversions succeed) that do **not** round-trip as the claim states: a
`MsgChannelOpenTry` whose embedded channel version is the non-empty `v`
(re-encoding writes the empty version), and a `MsgAcknowledgement` whose
packet carries the literal zero timeout height (re-encoding writes the
absent field). -/
theorem C3_message_roundtrips_counterexample :
    (msgChanOpenTryFromRaw rawTryV).isOk = true ∧
    (msgChanOpenTryFromRaw rawTryV).map msgChanOpenTryToRaw ≠
      Except.ok rawTryV ∧
    (msgAcknowledgementFromRaw rawAckZeroTH).isOk = true ∧
    (msgAcknowledgementFromRaw rawAckZeroTH).map msgAcknowledgementToRaw ≠
      Except.ok rawAckZeroTH := by
  decide

/-- Fixture: a well-formed domain `MsgConnectionOpenConfirm`. -/
def msgConfirmGood : MsgConnectionOpenConfirm :=
  MsgConnectionOpenConfirm.mk sampleConn (CommitmentProofBytes.mk [1])
    (Height.mk 0 10) (Signer.mk ['a', 'l', 'i', 'c', 'e'])

/-- C3 witness: the well-formed confirm message survives the
domain-to-raw-to-domain round trip. -/
theorem C3_message_roundtrips_witness :
    msgConnOpenConfirmFromRaw (msgConnOpenConfirmToRaw msgConfirmGood) =
      Except.ok msgConfirmGood :=
  C3_message_roundtrips.2.2.2.2.2.2.2 msgConfirmGood (by decide)
